import Mathlib

/-!
# Wireshark: frame records, their comparator, and the display-filter syntax tree

A shallow embedding of `epan/frame_data.c`, of `epan/dfilter/syntax-tree.c`
(the type registry and the nodes) and of the dissect function of
`epan/dissectors/packet-woww.c`.

Conventions of the embedding

* `guint32` values are natural numbers; where the C code does arithmetic on
  them the result is reduced modulo `2^32`.
* `time_t` and `int` values are integers; the one narrowing cast of the
  source, `(gint32)`, is the function `to_gint32`.
* a single-bit flag (`ref_time`) is a `Bool`.
* a pointer to a frame record is the address of the record in a frame
  memory; a pointer that may be `NULL` is an `Option`.
* an aborting assertion (`ws_assert`) makes the result `none`.
* a payload (`gpointer`) is a natural number, `0` being `NULL`.
* an exception thrown by a buffer accessor makes the result of the dissect
  function `none`.
-/

namespace Wireshark

/-! ## Time values -/

/-- Time value `nstime_t` of `wsutil/nstime.h`: `time_t secs; int nsecs;`. -/
structure nstime_t where
  secs : Int
  nsecs : Int
  deriving DecidableEq, Repr

/-- Modelled from the spec: `nstime_set_zero` of `wsutil/nstime.c`, which is
not among the sources; "zero elapsed time", that is 0 s and 0 ns. -/
def nstime_set_zero : nstime_t := { secs := 0, nsecs := 0 }

/-- Modelled from the spec: `nstime_delta` of `wsutil/nstime.c`, which is not
among the sources; "the time difference" `b - a`, with a seconds part and a
nanoseconds part of the same sign.  The functions of `frame_data.c` below take
the delta function as a parameter, so that what is proved about them holds for
every such function; this one is used for concrete runs. -/
def nstime_delta (b a : nstime_t) : nstime_t :=
  if b.secs = a.secs then
    { secs := 0, nsecs := b.nsecs - a.nsecs }
  else if b.secs < a.secs then
    if b.nsecs - a.nsecs > 0 then
      { secs := b.secs - a.secs + 1, nsecs := b.nsecs - a.nsecs - 1000000000 }
    else
      { secs := b.secs - a.secs, nsecs := b.nsecs - a.nsecs }
  else
    if b.nsecs - a.nsecs < 0 then
      { secs := b.secs - a.secs - 1, nsecs := b.nsecs - a.nsecs + 1000000000 }
    else
      { secs := b.secs - a.secs, nsecs := b.nsecs - a.nsecs }

/-- The cast `(gint32) x`: the value is reduced to the signed 32-bit range
by wrapping around. -/
def to_gint32 (x : Int) : Int := (x + 2147483648) % 4294967296 - 2147483648

/-- The value `x` is representable as a `gint32`. -/
def fits_gint32 (x : Int) : Prop := -2147483648 ≤ x ∧ x < 2147483648

instance (x : Int) : Decidable (fits_gint32 x) := by
  unfold fits_gint32; infer_instance

/-! ## Frame records -/

/-- The fields of `frame_data` (`epan/frame_data.h`) that `frame_data.c`
reads or writes in the functions embedded here. -/
structure frame_data where
  num : Nat
  pkt_len : Nat
  cap_len : Nat
  cum_bytes : Nat
  ref_time : Bool
  abs_ts : nstime_t
  frame_ref_num : Nat
  prev_dis_num : Nat
  deriving DecidableEq, Repr

/-- The session, as far as `frame_data.c` uses it: `epan_get_frame_ts`
gives the time stamp of a frame number, or `NULL`. -/
structure epan_session where
  get_frame_ts : Nat → Option nstime_t

/-- Modelled from the spec: `epan_get_frame_ts` of `epan/epan.c`, which is
not among the sources; the lookup of a time stamp by sequence number, which
may miss. -/
def epan_get_frame_ts (epan : epan_session) (frame_num : Nat) : Option nstime_t :=
  epan.get_frame_ts frame_num

/-- The sort field of `frame_data_compare`, an `int` in the source.  The
thirteen `COL_` constants of `epan/column-utils.h` that have a `case` label
in the `switch` are constructors of their own; `COL_OTHER n` stands for
every other value of the `int`. -/
inductive col_field where
  | COL_NUMBER
  | COL_CLS_TIME
  | COL_ABS_TIME
  | COL_ABS_YMD_TIME
  | COL_ABS_YDOY_TIME
  | COL_UTC_TIME
  | COL_UTC_YMD_TIME
  | COL_UTC_YDOY_TIME
  | COL_REL_TIME
  | COL_DELTA_TIME
  | COL_DELTA_TIME_DIS
  | COL_PACKET_LENGTH
  | COL_CUMULATIVE_BYTES
  | COL_OTHER (n : Int)
  deriving DecidableEq, Repr

/-- The time-display mode `ts_type` of `epan/timestamp.h`, the result of
`timestamp_get_type()`. -/
inductive ts_type where
  | TS_RELATIVE
  | TS_ABSOLUTE
  | TS_ABSOLUTE_WITH_YMD
  | TS_ABSOLUTE_WITH_YDOY
  | TS_DELTA
  | TS_DELTA_DIS
  | TS_EPOCH
  | TS_UTC
  | TS_UTC_WITH_YMD
  | TS_UTC_WITH_YDOY
  | TS_NOT_SET
  deriving DecidableEq, Repr

/-- The macro `COMPARE_FRAME_NUM()`. -/
def COMPARE_FRAME_NUM (fdata1 fdata2 : frame_data) : Int :=
  if fdata1.num < fdata2.num then -1
  else if fdata1.num > fdata2.num then 1
  else 0

/-- The macro `COMPARE_NUM(f)`; the field `f` is given as its projection. -/
def COMPARE_NUM (f : frame_data → Nat) (fdata1 fdata2 : frame_data) : Int :=
  if f fdata1 < f fdata2 then -1
  else if f fdata1 > f fdata2 then 1
  else COMPARE_FRAME_NUM fdata1 fdata2

/-- The macro `COMPARE_TS_REAL(time1, time2)`. -/
def COMPARE_TS_REAL (fdata1 fdata2 : frame_data) (time1 time2 : nstime_t) : Int :=
  if fdata1.ref_time && !fdata2.ref_time then -1
  else if !fdata1.ref_time && fdata2.ref_time then 1
  else if time1.secs < time2.secs then -1
  else if time1.secs > time2.secs then 1
  else if time1.nsecs < time2.nsecs then -1
  else if time1.nsecs > time2.nsecs then 1
  else COMPARE_FRAME_NUM fdata1 fdata2

/-- The macro `COMPARE_TS(ts)`, used in the source with `ts = abs_ts` only. -/
def COMPARE_TS (ts : frame_data → nstime_t) (fdata1 fdata2 : frame_data) : Int :=
  COMPARE_TS_REAL fdata1 fdata2 (ts fdata1) (ts fdata2)

/-- The function `frame_delta_abs_time`; the value written to `*delta` is
the result.  `delta_fn` is `nstime_delta`. -/
def frame_delta_abs_time (delta_fn : nstime_t → nstime_t → nstime_t)
    (epan : epan_session) (fdata : frame_data) (prev_num : Nat) : nstime_t :=
  let prev_abs_ts : Option nstime_t :=
    if prev_num ≠ 0 then epan_get_frame_ts epan prev_num else none
  match prev_abs_ts with
  | some ts => delta_fn fdata.abs_ts ts
  | none => nstime_set_zero

/-- The `guint32` subtraction `num - 1`. -/
def guint32_pred (num : Nat) : Nat := (num + 4294967295) % 4294967296

/-- The function `frame_data_time_delta_compare`. -/
def frame_data_time_delta_compare (delta_fn : nstime_t → nstime_t → nstime_t)
    (epan : epan_session) (fdata1 fdata2 : frame_data) : Int :=
  let del_cap_ts1 := frame_delta_abs_time delta_fn epan fdata1 (guint32_pred fdata1.num)
  let del_cap_ts2 := frame_delta_abs_time delta_fn epan fdata2 (guint32_pred fdata2.num)
  COMPARE_TS_REAL fdata1 fdata2 del_cap_ts1 del_cap_ts2

/-- The function `frame_data_time_delta_rel_compare`. -/
def frame_data_time_delta_rel_compare (delta_fn : nstime_t → nstime_t → nstime_t)
    (epan : epan_session) (fdata1 fdata2 : frame_data) : Int :=
  let del_rel_ts1 := frame_delta_abs_time delta_fn epan fdata1 fdata1.frame_ref_num
  let del_rel_ts2 := frame_delta_abs_time delta_fn epan fdata2 fdata2.frame_ref_num
  COMPARE_TS_REAL fdata1 fdata2 del_rel_ts1 del_rel_ts2

/-- The function `frame_data_time_delta_dis_compare`. -/
def frame_data_time_delta_dis_compare (delta_fn : nstime_t → nstime_t → nstime_t)
    (epan : epan_session) (fdata1 fdata2 : frame_data) : Int :=
  let del_dis_ts1 := frame_delta_abs_time delta_fn epan fdata1 fdata1.prev_dis_num
  let del_dis_ts2 := frame_delta_abs_time delta_fn epan fdata2 fdata2.prev_dis_num
  COMPARE_TS_REAL fdata1 fdata2 del_dis_ts1 del_dis_ts2

/-- The GLib macro `g_return_val_if_reached(val)`: it logs a critical
message and returns `val`; the log call aborts the process only when
critical messages have been made fatal (`fatal_criticals`, for instance
through `G_DEBUG=fatal-criticals`).  `none` is the abort. -/
def g_return_val_if_reached (fatal_criticals : Bool) (val : Int) : Option Int :=
  if fatal_criticals then none else some val

/-- The function `frame_data_compare`.  `mode` is the value of
`timestamp_get_type()`.  The inner `switch` covers every value of `ts_type`,
so the `return 0` after it is not reached. -/
def frame_data_compare (fatal_criticals : Bool) (mode : ts_type)
    (delta_fn : nstime_t → nstime_t → nstime_t) (epan : epan_session)
    (fdata1 fdata2 : frame_data) (field : col_field) : Option Int :=
  match field with
  | .COL_NUMBER => some (COMPARE_FRAME_NUM fdata1 fdata2)
  | .COL_CLS_TIME =>
    match mode with
    | .TS_ABSOLUTE | .TS_ABSOLUTE_WITH_YMD | .TS_ABSOLUTE_WITH_YDOY
    | .TS_UTC | .TS_UTC_WITH_YMD | .TS_UTC_WITH_YDOY | .TS_EPOCH =>
      some (COMPARE_TS frame_data.abs_ts fdata1 fdata2)
    | .TS_RELATIVE => some (frame_data_time_delta_rel_compare delta_fn epan fdata1 fdata2)
    | .TS_DELTA => some (frame_data_time_delta_compare delta_fn epan fdata1 fdata2)
    | .TS_DELTA_DIS => some (frame_data_time_delta_dis_compare delta_fn epan fdata1 fdata2)
    | .TS_NOT_SET => some 0
  | .COL_ABS_TIME | .COL_ABS_YMD_TIME | .COL_ABS_YDOY_TIME
  | .COL_UTC_TIME | .COL_UTC_YMD_TIME | .COL_UTC_YDOY_TIME =>
    some (COMPARE_TS frame_data.abs_ts fdata1 fdata2)
  | .COL_REL_TIME => some (frame_data_time_delta_rel_compare delta_fn epan fdata1 fdata2)
  | .COL_DELTA_TIME => some (frame_data_time_delta_compare delta_fn epan fdata1 fdata2)
  | .COL_DELTA_TIME_DIS => some (frame_data_time_delta_dis_compare delta_fn epan fdata1 fdata2)
  | .COL_PACKET_LENGTH => some (COMPARE_NUM frame_data.pkt_len fdata1 fdata2)
  | .COL_CUMULATIVE_BYTES => some (COMPARE_NUM frame_data.cum_bytes fdata1 fdata2)
  | .COL_OTHER _ => g_return_val_if_reached fatal_criticals 0

/-- What `frame_data_set_before_dissect` reads and writes through its
pointer arguments: the frame records in memory (`mem`, by address), the
accumulator `*elapsed_time`, and the reference-frame slot `*frame_ref`
(`none` is `NULL`). -/
structure dissect_state where
  mem : Nat → frame_data
  elapsed_time : nstime_t
  frame_ref : Option Nat

/-- The function `frame_data_set_before_dissect`.  `fdata` is the address
of the record, `prev_dis` the address of the previous displayed frame or
`none` for `NULL`. -/
def frame_data_set_before_dissect (delta_fn : nstime_t → nstime_t → nstime_t)
    (st : dissect_state) (fdata : Nat) (prev_dis : Option Nat) : dissect_state :=
  -- if (*frame_ref == NULL) *frame_ref = fdata;
  let frame_ref1 : Nat :=
    match st.frame_ref with
    | none => fdata
    | some r => r
  -- if (fdata->ref_time) *frame_ref = fdata;
  let frame_ref2 : Nat := if (st.mem fdata).ref_time then fdata else frame_ref1
  let rel_ts := delta_fn (st.mem fdata).abs_ts (st.mem frame_ref2).abs_ts
  let elapsed_time :=
    if to_gint32 st.elapsed_time.secs < rel_ts.secs
        ∨ (to_gint32 st.elapsed_time.secs = rel_ts.secs
            ∧ to_gint32 st.elapsed_time.nsecs < rel_ts.nsecs) then
      rel_ts
    else st.elapsed_time
  let frame_ref_num := if frame_ref2 ≠ fdata then (st.mem frame_ref2).num else 0
  let prev_dis_num :=
    match prev_dis with
    | some p => (st.mem p).num
    | none => 0
  { mem := Function.update st.mem fdata
      { st.mem fdata with frame_ref_num := frame_ref_num, prev_dis_num := prev_dis_num }
    elapsed_time := elapsed_time
    frame_ref := some frame_ref2 }

/-- The function `frame_data_set_after_dissect`; the result is the record
and the running total `*cum_bytes` after the call. -/
def frame_data_set_after_dissect (fdata : frame_data) (cum_bytes : Nat) :
    frame_data × Nat :=
  if fdata.ref_time then
    let cum_bytes1 := fdata.pkt_len
    ({ fdata with cum_bytes := cum_bytes1 }, cum_bytes1)
  else
    let cum_bytes1 := (cum_bytes + fdata.pkt_len) % 4294967296
    ({ fdata with cum_bytes := cum_bytes1 }, cum_bytes1)

/-! ## The type registry of the display-filter syntax tree -/

/-- The type descriptor `sttype_t` of `epan/dfilter/syntax-tree.h`, with the
fields `syntax-tree.c` uses.  A payload (`gpointer`) is a natural number, `0`
being `NULL`; a function pointer that may be `NULL` is an `Option`. -/
structure sttype_t where
  id : Nat
  name : String
  func_new : Option (Nat → Nat)
  func_free : Option (Nat → Unit)
  func_dup : Option (Nat → Nat)

/-- The static array `type_list[STTYPE_NUM_TYPES]` before any registration:
every entry is `NULL`. -/
def type_list_empty : Nat → Option sttype_t := fun _ => none

/-- The function `sttype_register`.  The registry `type_list` is passed in
and the registry after the call is the result; `none` is a failed
`ws_assert`.  The constant `STTYPE_NUM_TYPES` of `syntax-tree.h` is a
parameter. -/
def sttype_register (STTYPE_NUM_TYPES : Nat) (type_list : Nat → Option sttype_t)
    (type : sttype_t) : Option (Nat → Option sttype_t) :=
  let type_id := type.id
  if ¬ type_id < STTYPE_NUM_TYPES then none
  else if ¬ (type_list type_id).isNone then none
  else some (Function.update type_list type_id (some type))

/-- The function `sttype_lookup`; `none` is a failed `ws_assert`. -/
def sttype_lookup (STTYPE_NUM_TYPES : Nat) (type_list : Nat → Option sttype_t)
    (type_id : Nat) : Option sttype_t :=
  if ¬ type_id < STTYPE_NUM_TYPES then none
  else
    match type_list type_id with
    | none => none
    | some result => some result

/-- Successive calls of `sttype_register`, one for each descriptor of the
list, from left to right; `none` as soon as one of them fails. -/
def sttype_register_all (STTYPE_NUM_TYPES : Nat) :
    (Nat → Option sttype_t) → List sttype_t → Option (Nat → Option sttype_t)
  | type_list, [] => some type_list
  | type_list, type :: rest =>
    match sttype_register STTYPE_NUM_TYPES type_list type with
    | none => none
    | some type_list1 => sttype_register_all STTYPE_NUM_TYPES type_list1 rest

/-- Modelled from the spec: the functions `sttype_register_function`,
`sttype_register_integer`, `sttype_register_pointer`, `sttype_register_range`,
`sttype_register_set`, `sttype_register_string` and `sttype_register_test`
called by `sttype_init` are not among the sources; by the spec "process-wide
initialization registers exactly the 7 built-in variants once", so each of them
is one `sttype_register` call on the descriptor of its variant, and the seven
descriptors are parameters.  The calls are in the order of `sttype_init`. -/
def sttype_init (STTYPE_NUM_TYPES : Nat)
    (function_type integer_type pointer_type range_type set_type string_type
      test_type : sttype_t)
    (type_list : Nat → Option sttype_t) : Option (Nat → Option sttype_t) := do
  let type_list1 ← sttype_register STTYPE_NUM_TYPES type_list function_type
  let type_list2 ← sttype_register STTYPE_NUM_TYPES type_list1 integer_type
  let type_list3 ← sttype_register STTYPE_NUM_TYPES type_list2 pointer_type
  let type_list4 ← sttype_register STTYPE_NUM_TYPES type_list3 range_type
  let type_list5 ← sttype_register STTYPE_NUM_TYPES type_list4 set_type
  let type_list6 ← sttype_register STTYPE_NUM_TYPES type_list5 string_type
  sttype_register STTYPE_NUM_TYPES type_list6 test_type

/-! ## Syntax-tree nodes -/

/-- The constant `STNODE_MAGIC`. -/
def STNODE_MAGIC : Nat := 0xe9b00b9e

/-- The node `stnode_t` of `epan/dfilter/syntax-tree.h`, with the fields
`syntax-tree.c` uses: the integrity tag, the bound type (`none` is `NULL`),
the payload (`0` is `NULL`), the immediate value (a `gint32`), the bracket
marker and the deprecated token (`none` is `NULL`). -/
structure stnode_t where
  magic : Nat
  type : Option sttype_t
  data : Nat
  value : Int
  inside_brackets : Bool
  deprecated_token : Option String

/-- Modelled from the spec: the macro `ws_assert_magic(obj, mnum)` of
`wsutil/ws_assert.h`, which is not among the sources; it "validates the node's
integrity tag; mismatch is treated as a fatal corruption/use-after-free
condition".  The result is whether the check passes. -/
def ws_assert_magic (node : stnode_t) (mnum : Nat) : Bool :=
  decide (node.magic = mnum)

/-- The function `stnode_new`.  `g_new` does not set the memory it returns
and `stnode_new` does not assign the field `value`: its content is the
parameter `uninit_value`.  The constant `STTYPE_UNINITIALIZED` of
`syntax-tree.h` is a parameter.  `none` is a failed `ws_assert`. -/
def stnode_new (STTYPE_NUM_TYPES STTYPE_UNINITIALIZED : Nat)
    (type_list : Nat → Option sttype_t) (uninit_value : Int)
    (type_id : Nat) (data : Nat) : Option stnode_t :=
  if type_id = STTYPE_UNINITIALIZED then
    some { magic := STNODE_MAGIC, deprecated_token := none, inside_brackets := false,
           type := none, data := 0, value := uninit_value }
  else
    match sttype_lookup STTYPE_NUM_TYPES type_list type_id with
    | none => none
    | some type =>
      some { magic := STNODE_MAGIC, deprecated_token := none, inside_brackets := false,
             type := some type,
             data :=
               (match type.func_new with
                | some func_new => func_new data
                | none => data),
             value := uninit_value }

/-- The function `stnode_set_bracket`; the node after the call is the
result. -/
def stnode_set_bracket (node : stnode_t) (bracket : Bool) : stnode_t :=
  { node with inside_brackets := bracket }

/-- The function `stnode_dup`; `none` is `NULL`, for the argument and for the
result.  The argument is a pointer to `const`: nothing is written to it. -/
def stnode_dup (org : Option stnode_t) : Option stnode_t :=
  match org with
  | none => none
  | some org =>
    let type := org.type
    some { magic := STNODE_MAGIC, deprecated_token := none, type := type,
           data :=
             (match type with
              | some t =>
                (match t.func_dup with
                 | some func_dup => func_dup org.data
                 | none => org.data)
              | none => org.data),
           value := org.value,
           inside_brackets := org.inside_brackets }

/-- The function `stnode_init`; the node after the call is the result,
`none` is a failed assertion. -/
def stnode_init (STTYPE_NUM_TYPES : Nat) (type_list : Nat → Option sttype_t)
    (node : stnode_t) (type_id : Nat) (data : Nat) : Option stnode_t :=
  if ¬ ws_assert_magic node STNODE_MAGIC then none
  else if ¬ node.type.isNone then none
  else if ¬ node.data = 0 then none
  else
    match sttype_lookup STTYPE_NUM_TYPES type_list type_id with
    | none => none
    | some type =>
      some { node with
             type := some type
             data :=
               (match type.func_new with
                | some func_new => func_new data
                | none => data) }

/-- The function `stnode_init_int`. -/
def stnode_init_int (STTYPE_NUM_TYPES : Nat) (type_list : Nat → Option sttype_t)
    (node : stnode_t) (type_id : Nat) (value : Int) : Option stnode_t :=
  match stnode_init STTYPE_NUM_TYPES type_list node type_id 0 with
  | none => none
  | some node1 => some { node1 with value := value }

/-- The function `stnode_free`.  The result is the list of the payloads on
which the destructor `func_free` has been called; `none` is a failed
assertion.  The node itself is released by `g_free`. -/
def stnode_free (node : stnode_t) : Option (List Nat) :=
  if ¬ ws_assert_magic node STNODE_MAGIC then none
  else
    match node.type with
    | some type =>
      (match type.func_free with
       | some _ => some [node.data]
       | none => some [])
    | none =>
      if ¬ node.data = 0 then none else some []

/-- The function `stnode_type_name`. -/
def stnode_type_name (node : stnode_t) : Option String :=
  if ¬ ws_assert_magic node STNODE_MAGIC then none
  else
    match node.type with
    | some type => some type.name
    | none => some "UNINITIALIZED"

/-- The function `stnode_type_id`. -/
def stnode_type_id (STTYPE_UNINITIALIZED : Nat) (node : stnode_t) : Option Nat :=
  if ¬ ws_assert_magic node STNODE_MAGIC then none
  else
    match node.type with
    | some type => some type.id
    | none => some STTYPE_UNINITIALIZED

/-- The function `stnode_data`. -/
def stnode_data (node : stnode_t) : Option Nat :=
  if ¬ ws_assert_magic node STNODE_MAGIC then none
  else some node.data

/-- The function `stnode_steal_data`; the result is the returned payload
and the node after the call. -/
def stnode_steal_data (node : stnode_t) : Option (Nat × stnode_t) :=
  if ¬ ws_assert_magic node STNODE_MAGIC then none
  else
    let data := node.data
    if ¬ data ≠ 0 then none
    else some (data, { node with data := 0 })

/-- The function `stnode_value`. -/
def stnode_value (node : stnode_t) : Option Int :=
  if ¬ ws_assert_magic node STNODE_MAGIC then none
  else some node.value

/-- The function `stnode_deprecated`; `none` is `NULL`, for the argument and
for the result. -/
def stnode_deprecated (node : Option stnode_t) : Option String :=
  match node with
  | none => none
  | some node => node.deprecated_token

/-! ## The World of Warcraft World dissector -/

/-- A buffer view `tvbuff_t`, as far as `dissect_woww` uses it: the captured
bytes and the reported length. -/
structure tvbuff_t where
  data : List Nat
  reported_length : Nat

/-- The ports of `packet_info` that `dissect_woww` tests. -/
structure packet_info where
  srcport : Nat
  destport : Nat

/-- What `dissect_woww` produces: the returned number of bytes, and the
Protocol and Info columns when it has set them. -/
structure woww_result where
  consumed : Nat
  col_protocol : Option String
  col_info : Option String
  deriving DecidableEq, Repr

/-- The constant `WOWW_TCP_PORT`. -/
def WOWW_TCP_PORT : Nat := 8085

/-- The constant `WOWW_MIN_LENGTH`. -/
def WOWW_MIN_LENGTH : Nat := 4

/-- Modelled from the spec: `tvb_reported_length` of `epan/tvbuff.c`, which
is not among the sources; the reported length of the "byte-buffer view". -/
def tvb_reported_length (tvb : tvbuff_t) : Nat := tvb.reported_length

/-- Modelled from the spec: `tvb_captured_length` of `epan/tvbuff.c`, which
is not among the sources; the number of bytes of the "byte-buffer view". -/
def tvb_captured_length (tvb : tvbuff_t) : Nat := tvb.data.length

/-- The bytes `offset`, ..., `offset + length - 1` are among the captured
bytes of the buffer. -/
def tvb_bytes_exist (tvb : tvbuff_t) (offset length : Nat) : Bool :=
  decide (offset + length ≤ tvb.data.length)

/-- Modelled from the spec: `tvb_get_guint16` of `epan/tvbuff.c`, which is
not among the sources; the two bytes at `offset` as a number in the given
byte order.  The accessor is bounds-checked: when the bytes are not in the
buffer it throws an exception (the source of `dissect_woww` says "in case the
calls to fetch data from the packet throw an exception"), which is `none`. -/
def tvb_get_guint16 (tvb : tvbuff_t) (offset : Nat) (little_endian : Bool) : Option Nat :=
  if tvb_bytes_exist tvb offset 2 then
    let b0 := tvb.data.getD offset 0
    let b1 := tvb.data.getD (offset + 1) 0
    if little_endian then some (b0 + 256 * b1) else some (256 * b0 + b1)
  else none

/-- Modelled from the spec: `tvb_get_guint32` of `epan/tvbuff.c`, which is
not among the sources; the four bytes at `offset` as a number in the given
byte order, or the exception `none` when they are not in the buffer. -/
def tvb_get_guint32 (tvb : tvbuff_t) (offset : Nat) (little_endian : Bool) : Option Nat :=
  if tvb_bytes_exist tvb offset 4 then
    let b0 := tvb.data.getD offset 0
    let b1 := tvb.data.getD (offset + 1) 0
    let b2 := tvb.data.getD (offset + 2) 0
    let b3 := tvb.data.getD (offset + 3) 0
    if little_endian then some (b0 + 256 * b1 + 65536 * b2 + 16777216 * b3)
    else some (16777216 * b0 + 65536 * b1 + 256 * b2 + b3)
  else none

/-- Modelled from the spec: `proto_tree_add_item` of `epan/proto.c`, which is
not among the sources; it labels the bytes `start`, ..., `start + length - 1`
of the buffer (to the end of the buffer when `length` is -1), and like the
accessors it throws an exception, `none`, when they are not in the buffer. -/
def proto_tree_add_item (tvb : tvbuff_t) (start : Nat) (length : Int) : Option Unit :=
  if length = -1 then
    if start ≤ tvb.data.length then some () else none
  else if tvb_bytes_exist tvb start length.toNat then some () else none

/-- The table `world_packet_strings` with `val_to_str_const`: the name of
an opcode, or the default string. -/
def val_to_str_const (opcode : Nat) (unknown_str : String) : String :=
  if opcode = 0x1EC then "SMSG_AUTH_CHALLENGE"
  else if opcode = 0x1ED then "CMSG_AUTH_SESSION"
  else unknown_str

/-- The function `dissect_woww`; `none` is an exception thrown by a buffer
accessor. -/
def dissect_woww (tvb : tvbuff_t) (pinfo : packet_info) : Option woww_result :=
  if tvb_reported_length tvb < WOWW_MIN_LENGTH then
    some { consumed := 0, col_protocol := none, col_info := none }
  else if tvb_captured_length tvb < 1 then
    some { consumed := 0, col_protocol := none, col_info := none }
  else
    match proto_tree_add_item tvb 0 (-1) with
    | none => none
    | some _ =>
      let offset : Nat := 0
      let len : Nat := 2
      match proto_tree_add_item tvb offset len with
      | none => none
      | some _ =>
        let offset := offset + len
        let fetched : Option (Nat × Nat) :=
          if pinfo.srcport = WOWW_TCP_PORT then
            (tvb_get_guint16 tvb offset true).map (fun opcode => (2, opcode))
          else if pinfo.destport = WOWW_TCP_PORT then
            (tvb_get_guint32 tvb offset true).map (fun opcode => (4, opcode))
          else some (len, 0)
        match fetched with
        | none => none
        | some (len, opcode) =>
          match proto_tree_add_item tvb offset len with
          | none => none
          | some _ =>
            some { consumed := tvb_captured_length tvb
                   col_protocol := some "WOWW"
                   col_info := some (val_to_str_const opcode "Encrypted Header") }

/-! ## Notions of the specification -/

/-- The length of the opcode that `dissect_woww` reads at offset 2: 2 bytes
from the server to the client, 4 bytes from the client to the server, and 2
bytes when neither port is the World port. -/
def woww_opcode_len (pinfo : packet_info) : Nat :=
  if pinfo.srcport = 8085 then 2 else if pinfo.destport = 8085 then 4 else 2

/-- The six absolute-timestamp fields. -/
def abs_time_field : col_field → Bool
  | .COL_ABS_TIME | .COL_ABS_YMD_TIME | .COL_ABS_YDOY_TIME
  | .COL_UTC_TIME | .COL_UTC_YMD_TIME | .COL_UTC_YDOY_TIME => true
  | _ => false

/-- The reference frame number `k(r)` of a record under the three delta
fields: the stored reference-frame number for relative time, the sequence
number minus 1 (a `guint32`) for delta time, the stored previous-displayed
number for displayed-only delta time. -/
def delta_ref_num : col_field → frame_data → Nat
  | .COL_REL_TIME, r => r.frame_ref_num
  | .COL_DELTA_TIME, r => (r.num + 4294967295) % 4294967296
  | .COL_DELTA_TIME_DIS, r => r.prev_dis_num
  | _, _ => 0

/-- Lexicographic order on (seconds, nanoseconds). -/
def nstime_lt (x y : nstime_t) : Prop :=
  x.secs < y.secs ∨ (x.secs = y.secs ∧ x.nsecs < y.nsecs)

instance (x y : nstime_t) : Decidable (nstime_lt x y) := by
  unfold nstime_lt; infer_instance

/-- The larger of two time values in the order `nstime_lt`. -/
def nstime_max (x y : nstime_t) : nstime_t := if nstime_lt x y then y else x

/-- The rule of the specification: "reference-time record first, then
(seconds, nanoseconds), then sequence number", applied to the records `a`, `b`
and their time values `ta`, `tb`. -/
def ref_time_first_rule (a b : frame_data) (ta tb : nstime_t) : Int :=
  if a.ref_time = true ∧ b.ref_time = false then -1
  else if a.ref_time = false ∧ b.ref_time = true then 1
  else if nstime_lt ta tb then -1
  else if nstime_lt tb ta then 1
  else if a.num < b.num then -1
  else if b.num < a.num then 1
  else 0

/-- The primary sort key of a field is equal on the two records: the
reference-time flag and the compared time value for the time fields, the
packet length, the cumulative total. -/
def primary_key_equal (delta_fn : nstime_t → nstime_t → nstime_t) (epan : epan_session)
    (a b : frame_data) : col_field → Prop
  | .COL_ABS_TIME | .COL_ABS_YMD_TIME | .COL_ABS_YDOY_TIME
  | .COL_UTC_TIME | .COL_UTC_YMD_TIME | .COL_UTC_YDOY_TIME =>
    a.ref_time = b.ref_time ∧ a.abs_ts.secs = b.abs_ts.secs ∧ a.abs_ts.nsecs = b.abs_ts.nsecs
  | .COL_REL_TIME =>
    a.ref_time = b.ref_time ∧
      frame_delta_abs_time delta_fn epan a a.frame_ref_num
        = frame_delta_abs_time delta_fn epan b b.frame_ref_num
  | .COL_DELTA_TIME =>
    a.ref_time = b.ref_time ∧
      frame_delta_abs_time delta_fn epan a (guint32_pred a.num)
        = frame_delta_abs_time delta_fn epan b (guint32_pred b.num)
  | .COL_DELTA_TIME_DIS =>
    a.ref_time = b.ref_time ∧
      frame_delta_abs_time delta_fn epan a a.prev_dis_num
        = frame_delta_abs_time delta_fn epan b b.prev_dis_num
  | .COL_PACKET_LENGTH => a.pkt_len = b.pkt_len
  | .COL_CUMULATIVE_BYTES => a.cum_bytes = b.cum_bytes
  | _ => False

/-- The field that the time-display mode selects for `COL_CLS_TIME`; `none`
for `TS_NOT_SET`, where the comparison is 0. -/
def cls_time_field : ts_type → Option col_field
  | .TS_ABSOLUTE | .TS_ABSOLUTE_WITH_YMD | .TS_ABSOLUTE_WITH_YDOY
  | .TS_UTC | .TS_UTC_WITH_YMD | .TS_UTC_WITH_YDOY | .TS_EPOCH => some .COL_ABS_TIME
  | .TS_RELATIVE => some .COL_REL_TIME
  | .TS_DELTA => some .COL_DELTA_TIME
  | .TS_DELTA_DIS => some .COL_DELTA_TIME_DIS
  | .TS_NOT_SET => none

/-- A consistent three-way ordering: the values are -1, 0 and 1, exchanging
the arguments negates the value, and "at most 0" is transitive. -/
def three_way_ordering (c : frame_data → frame_data → Int) : Prop :=
  (∀ a b, c a b = -1 ∨ c a b = 0 ∨ c a b = 1)
    ∧ (∀ a b, c b a = - c a b)
    ∧ (∀ a b d, c a b ≤ 0 → c b d ≤ 0 → c a d ≤ 0)

/-- One call of a public operation that changes or copies a node: the
operations `stnode_init`, `stnode_init_int`, `stnode_set_bracket`,
`stnode_steal_data` and `stnode_dup`, with their arguments. -/
inductive stnode_op where
  | init (type_id data : Nat)
  | init_int (type_id : Nat) (value : Int)
  | set_bracket (bracket : Bool)
  | steal_data
  | dup

/-- The node that a call of a public operation leaves or returns: the node
after the call for `stnode_init`, `stnode_init_int`, `stnode_set_bracket` and
`stnode_steal_data`, the new node for `stnode_dup`; `none` when the call
fails. -/
def stnode_apply (STTYPE_NUM_TYPES : Nat) (type_list : Nat → Option sttype_t)
    (node : stnode_t) : stnode_op → Option stnode_t
  | .init type_id data => stnode_init STTYPE_NUM_TYPES type_list node type_id data
  | .init_int type_id value => stnode_init_int STTYPE_NUM_TYPES type_list node type_id value
  | .set_bracket bracket => some (stnode_set_bracket node bracket)
  | .steal_data =>
    (match stnode_steal_data node with
     | some (_, node1) => some node1
     | none => none)
  | .dup => stnode_dup (some node)

/-- A sequence of calls of public operations, each on the node of the call
before; `none` as soon as one of them fails. -/
def stnode_run (STTYPE_NUM_TYPES : Nat) (type_list : Nat → Option sttype_t) :
    stnode_t → List stnode_op → Option stnode_t
  | node, [] => some node
  | node, op :: rest =>
    match stnode_apply STTYPE_NUM_TYPES type_list node op with
    | none => none
    | some node1 => stnode_run STTYPE_NUM_TYPES type_list node1 rest

/-- The invariant of the nodes: the integrity tag is valid, and a node with
no bound type has an empty payload. -/
def stnode_invariant (node : stnode_t) : Prop :=
  node.magic = STNODE_MAGIC ∧ (node.type = none → node.data = 0)

/-! ## Concrete records used in the examples -/

/-- A frame record with the given number, reference-time flag, time stamp,
length and cumulative total. -/
def mk_frame (num : Nat) (ref_time : Bool) (secs nsecs : Int) (pkt_len cum_bytes : Nat) :
    frame_data :=
  { num := num, pkt_len := pkt_len, cap_len := pkt_len, cum_bytes := cum_bytes,
    ref_time := ref_time, abs_ts := { secs := secs, nsecs := nsecs },
    frame_ref_num := 0, prev_dis_num := 0 }

/-- A session that knows the time stamps of frames 1 to 3. -/
def example_epan : epan_session :=
  { get_frame_ts := fun n =>
      if n = 1 then some { secs := 10, nsecs := 0 }
      else if n = 2 then some { secs := 12, nsecs := 500000000 }
      else if n = 3 then some { secs := 15, nsecs := 250000000 }
      else none }

/-- A frame memory with three records: frame 1 at 0 s, frame 2 at
2147483648 s, frame 3 at 100 s; none of them is a reference-time frame. -/
def example_mem : Nat → frame_data := fun addr =>
  if addr = 1 then mk_frame 1 false 0 0 60 0
  else if addr = 2 then mk_frame 2 false 2147483648 0 60 0
  else mk_frame 3 false 100 0 60 0

/-- The state before the first frame is processed: the accumulator is zero
and no reference frame is known. -/
def example_state0 : dissect_state :=
  { mem := example_mem, elapsed_time := { secs := 0, nsecs := 0 }, frame_ref := none }

/-- The state after frame 1 has been processed. -/
def example_state1 : dissect_state :=
  frame_data_set_before_dissect nstime_delta example_state0 1 none

/-- The state after frames 1 and 2 have been processed. -/
def example_state2 : dissect_state :=
  frame_data_set_before_dissect nstime_delta example_state1 2 (some 1)

/-- The state after frames 1, 2 and 3 have been processed. -/
def example_state3 : dissect_state :=
  frame_data_set_before_dissect nstime_delta example_state2 3 (some 2)

/-- A descriptor with the given identifier and name and no constructor,
duplicator or destructor. -/
def example_type (id : Nat) (name : String) : sttype_t :=
  { id := id, name := name, func_new := none, func_free := none, func_dup := none }

/-- A descriptor of identifier 6 with a constructor, a duplicator and a
destructor; the duplicator gives back an equal payload. -/
def example_string_type : sttype_t :=
  { id := 6, name := "STRING", func_new := some (fun raw => raw + 1000),
    func_free := some (fun _ => ()), func_dup := some (fun payload => payload) }

/-- The registry after the registration of three descriptors, in a registry
of 8 slots. -/
def example_type_list : Nat → Option sttype_t :=
  Function.update
    (Function.update
      (Function.update type_list_empty 1 (some (example_type 1 "TEST")))
      6 (some example_string_type))
    7 (some (example_type 7 "INTEGER"))

/-- An empty shell: a node with a valid tag, no type and no payload. -/
def example_shell : stnode_t :=
  { magic := STNODE_MAGIC, type := none, data := 0, value := 0, inside_brackets := true,
    deprecated_token := some "old" }

/-- A node bound to `example_string_type`, with payload 1042. -/
def example_node : stnode_t :=
  { magic := STNODE_MAGIC, type := some example_string_type, data := 1042, value := 5,
    inside_brackets := false, deprecated_token := none }

/-- A node whose integrity tag is not `STNODE_MAGIC`, as that of a node
that has been released. -/
def example_corrupt_node : stnode_t :=
  { magic := 0, type := some example_string_type, data := 1042, value := 5,
    inside_brackets := false, deprecated_token := some "old" }

/-- A server-to-client packet of 4 bytes: size 2, opcode 0x1EC. -/
def example_tvb_server : tvbuff_t :=
  { data := [0, 2, 236, 1], reported_length := 4 }

/-- A client-to-server packet of 4 bytes, all of them captured. -/
def example_tvb_short : tvbuff_t :=
  { data := [0, 2, 237, 1], reported_length := 4 }

/-- A client-to-server packet of 6 bytes: size 4, opcode 0x1ED. -/
def example_tvb_client : tvbuff_t :=
  { data := [0, 4, 237, 1, 0, 0], reported_length := 6 }

/-- Traffic from the World port. -/
def example_from_server : packet_info := { srcport := 8085, destport := 50000 }

/-- Traffic to the World port. -/
def example_to_server : packet_info := { srcport := 50000, destport := 8085 }

/-! ## The comparator -/

/-- Claim C1: when `a` is a reference-time record and `b` is not, then under
each of the six absolute-timestamp fields `frame_data_compare a b` is negative
(it is -1) and `frame_data_compare b a` is positive (it is 1), whatever the
time stamps, the sequence numbers, the display mode and the session are. -/
theorem frame_data_compare_ref_time_first (fatal_criticals : Bool) (mode : ts_type)
    (delta_fn : nstime_t → nstime_t → nstime_t) (epan : epan_session)
    (a b : frame_data) (field : col_field)
    (hfield : abs_time_field field = true)
    (ha : a.ref_time = true) (hb : b.ref_time = false) :
    frame_data_compare fatal_criticals mode delta_fn epan a b field = some (-1)
      ∧ frame_data_compare fatal_criticals mode delta_fn epan b a field = some 1 := by
  cases field <;> simp [abs_time_field] at hfield <;>
    simp [frame_data_compare, COMPARE_TS, COMPARE_TS_REAL, ha, hb]

/-- Record 3, reference-time, at 5.0 s against record 4, not reference-time,
at 1.0 s: negative one way, positive the other way. -/
theorem frame_data_compare_ref_time_first_witness :
    abs_time_field .COL_ABS_TIME = true
      ∧ (mk_frame 3 true 5 0 60 60).ref_time = true
      ∧ (mk_frame 4 false 1 0 60 120).ref_time = false
      ∧ frame_data_compare false .TS_ABSOLUTE nstime_delta example_epan
          (mk_frame 3 true 5 0 60 60) (mk_frame 4 false 1 0 60 120) .COL_ABS_TIME = some (-1)
      ∧ frame_data_compare false .TS_ABSOLUTE nstime_delta example_epan
          (mk_frame 4 false 1 0 60 120) (mk_frame 3 true 5 0 60 60) .COL_ABS_TIME = some 1 :=
  ⟨rfl, rfl, rfl,
    frame_data_compare_ref_time_first false .TS_ABSOLUTE nstime_delta example_epan
      (mk_frame 3 true 5 0 60 60) (mk_frame 4 false 1 0 60 120) .COL_ABS_TIME rfl rfl rfl⟩

/-- Claim C2: when the primary sort key of the field is equal on the two
records, `frame_data_compare` returns exactly the sequence-number comparison,
that is its result under `COL_NUMBER`.  The primary key is the reference-time
flag with the (seconds, nanoseconds) time stamp for the absolute-time fields
(and with the delta for the delta fields), the packet length for
`COL_PACKET_LENGTH`, the cumulative total for `COL_CUMULATIVE_BYTES`. -/
theorem frame_data_compare_tie_break (fatal_criticals : Bool) (mode : ts_type)
    (delta_fn : nstime_t → nstime_t → nstime_t) (epan : epan_session)
    (a b : frame_data) (field : col_field)
    (hkey : primary_key_equal delta_fn epan a b field) :
    frame_data_compare fatal_criticals mode delta_fn epan a b field
      = frame_data_compare fatal_criticals mode delta_fn epan a b .COL_NUMBER := by
  cases field <;> simp only [primary_key_equal] at hkey <;>
    first
    | exact hkey.elim
    | (simp only [frame_data_compare, COMPARE_TS, COMPARE_TS_REAL, COMPARE_NUM,
        frame_data_time_delta_compare, frame_data_time_delta_rel_compare,
        frame_data_time_delta_dis_compare]
       cases hr : b.ref_time <;> simp_all)

/-- Records 1 and 2 with the same time stamp 10.0 s, neither of them
reference-time: the absolute-time comparison is negative, not 0. -/
theorem frame_data_compare_tie_break_witness :
    primary_key_equal nstime_delta example_epan
        (mk_frame 1 false 10 0 60 60) (mk_frame 2 false 10 0 60 120) .COL_ABS_TIME
      ∧ frame_data_compare false .TS_ABSOLUTE nstime_delta example_epan
          (mk_frame 1 false 10 0 60 60) (mk_frame 2 false 10 0 60 120) .COL_ABS_TIME
        = some (-1) :=
  ⟨⟨rfl, rfl, rfl⟩,
    (frame_data_compare_tie_break false .TS_ABSOLUTE nstime_delta example_epan
      (mk_frame 1 false 10 0 60 60) (mk_frame 2 false 10 0 60 120) .COL_ABS_TIME
      ⟨rfl, rfl, rfl⟩).trans (by decide)⟩

/-! ## Cumulative bytes -/

/-- Claim C3: after `frame_data_set_after_dissect` the running total is the
record's own packet length when the record is a reference-time frame, and the
old running total plus the packet length, in unsigned 32-bit arithmetic,
otherwise; in both cases the cumulative bytes stored on the record equal the
new running total, and no other field of the record changes. -/
theorem frame_data_set_after_dissect_spec (fdata : frame_data) (cum_bytes : Nat) :
    (frame_data_set_after_dissect fdata cum_bytes).2
        = (if fdata.ref_time = true then fdata.pkt_len
           else (cum_bytes + fdata.pkt_len) % 2 ^ 32)
      ∧ (frame_data_set_after_dissect fdata cum_bytes).1.cum_bytes
        = (frame_data_set_after_dissect fdata cum_bytes).2
      ∧ (frame_data_set_after_dissect fdata cum_bytes).1
        = { fdata with cum_bytes := (frame_data_set_after_dissect fdata cum_bytes).2 } := by
  unfold frame_data_set_after_dissect
  cases h : fdata.ref_time <;> simp

/-- Length 100 after running total 500 stores 600; a reference-time record of
length 80 after running total 600 stores 80. -/
theorem frame_data_set_after_dissect_examples :
    (frame_data_set_after_dissect (mk_frame 7 false 3 0 100 0) 500).1.cum_bytes = 600
      ∧ (frame_data_set_after_dissect (mk_frame 7 false 3 0 100 0) 500).2 = 600
      ∧ (frame_data_set_after_dissect (mk_frame 8 true 4 0 80 0) 600).1.cum_bytes = 80
      ∧ (frame_data_set_after_dissect (mk_frame 8 true 4 0 80 0) 600).2 = 80 := by
  have h1 := frame_data_set_after_dissect_spec (mk_frame 7 false 3 0 100 0) 500
  have h2 := frame_data_set_after_dissect_spec (mk_frame 8 true 4 0 80 0) 600
  refine ⟨h1.2.1.trans (h1.1.trans (by decide)), h1.1.trans (by decide),
    h2.2.1.trans (h2.1.trans (by decide)), h2.1.trans (by decide)⟩

/-! ## Deltas -/

/-- The modelled `nstime_delta` is a time difference: counted in nanoseconds,
its result is the first time minus the second. -/
theorem nstime_delta_total (b a : nstime_t) :
    (nstime_delta b a).secs * 1000000000 + (nstime_delta b a).nsecs
      = (b.secs * 1000000000 + b.nsecs) - (a.secs * 1000000000 + a.nsecs) := by
  unfold nstime_delta
  split_ifs <;> simp_all <;> ring

/-- Claim C4: `frame_delta_abs_time` returns zero elapsed time (0 s, 0 ns)
whenever the reference number is 0, for every record and every session (the
lookup is not consulted: the result does not depend on it), and whenever the
lookup has no time stamp for the reference number; in every other case it
returns the difference of the record's time stamp and the looked-up one. -/
theorem frame_delta_abs_time_spec (delta_fn : nstime_t → nstime_t → nstime_t)
    (epan : epan_session) (fdata : frame_data) (ref_num : Nat) :
    (ref_num = 0 →
        ∀ epan1 : epan_session,
          frame_delta_abs_time delta_fn epan1 fdata ref_num = { secs := 0, nsecs := 0 })
      ∧ (epan_get_frame_ts epan ref_num = none →
          frame_delta_abs_time delta_fn epan fdata ref_num = { secs := 0, nsecs := 0 })
      ∧ (∀ ts : nstime_t, ref_num ≠ 0 → epan_get_frame_ts epan ref_num = some ts →
          frame_delta_abs_time delta_fn epan fdata ref_num = delta_fn fdata.abs_ts ts) := by
  refine ⟨?_, ?_, ?_⟩
  · intro h epan1
    simp [frame_delta_abs_time, h, nstime_set_zero]
  · intro h
    by_cases h0 : ref_num = 0 <;> simp [frame_delta_abs_time, h, h0, nstime_set_zero]
  · intro ts h0 h
    simp [frame_delta_abs_time, h, h0]

/-- Record 3 at 15.25 s: reference number 0 gives zero, the unknown frame 9
gives zero, and frame 1 (at 10.0 s) gives 5.25 s. -/
theorem frame_delta_abs_time_spec_witness :
    frame_delta_abs_time nstime_delta example_epan (mk_frame 3 false 15 250000000 60 180) 0
        = { secs := 0, nsecs := 0 }
      ∧ epan_get_frame_ts example_epan 9 = none
      ∧ frame_delta_abs_time nstime_delta example_epan (mk_frame 3 false 15 250000000 60 180) 9
        = { secs := 0, nsecs := 0 }
      ∧ epan_get_frame_ts example_epan 1 = some { secs := 10, nsecs := 0 }
      ∧ frame_delta_abs_time nstime_delta example_epan (mk_frame 3 false 15 250000000 60 180) 1
        = { secs := 5, nsecs := 250000000 } :=
  ⟨(frame_delta_abs_time_spec nstime_delta example_epan
      (mk_frame 3 false 15 250000000 60 180) 0).1 rfl example_epan,
    rfl,
    (frame_delta_abs_time_spec nstime_delta example_epan
      (mk_frame 3 false 15 250000000 60 180) 9).2.1 rfl,
    rfl,
    ((frame_delta_abs_time_spec nstime_delta example_epan
      (mk_frame 3 false 15 250000000 60 180) 1).2.2 { secs := 10, nsecs := 0 }
        (by decide) rfl).trans (by decide)⟩

/-! ## The comparator, continued -/

/-- Claim C5: under `COL_CLS_TIME` the comparison is the comparison under the
field selected by the time-display mode: `COL_ABS_TIME` for the absolute, UTC
and epoch modes, `COL_REL_TIME` for `TS_RELATIVE`, `COL_DELTA_TIME` for
`TS_DELTA`, `COL_DELTA_TIME_DIS` for `TS_DELTA_DIS`; it is 0 for
`TS_NOT_SET`. -/
theorem frame_data_compare_cls_time (fatal_criticals : Bool) (mode : ts_type)
    (delta_fn : nstime_t → nstime_t → nstime_t) (epan : epan_session)
    (a b : frame_data) :
    frame_data_compare fatal_criticals mode delta_fn epan a b .COL_CLS_TIME
      = (match cls_time_field mode with
         | some field => frame_data_compare fatal_criticals mode delta_fn epan a b field
         | none => some 0) := by
  cases mode <;> rfl

/-- Claim C6: under `COL_REL_TIME`, `COL_DELTA_TIME` and `COL_DELTA_TIME_DIS`
the comparison is the rule "reference-time record first, then (seconds,
nanoseconds), then sequence number" applied to the deltas of the two records,
the delta of a record `r` being `frame_delta_abs_time r (k r)` with `k r` the
stored reference-frame number, the sequence number minus 1 (as a `guint32`),
and the stored previous-displayed number respectively. -/
theorem frame_data_compare_delta_fields (fatal_criticals : Bool) (mode : ts_type)
    (delta_fn : nstime_t → nstime_t → nstime_t) (epan : epan_session)
    (a b : frame_data) :
    frame_data_compare fatal_criticals mode delta_fn epan a b .COL_REL_TIME
        = some (ref_time_first_rule a b
            (frame_delta_abs_time delta_fn epan a (delta_ref_num .COL_REL_TIME a))
            (frame_delta_abs_time delta_fn epan b (delta_ref_num .COL_REL_TIME b)))
      ∧ frame_data_compare fatal_criticals mode delta_fn epan a b .COL_DELTA_TIME
        = some (ref_time_first_rule a b
            (frame_delta_abs_time delta_fn epan a (delta_ref_num .COL_DELTA_TIME a))
            (frame_delta_abs_time delta_fn epan b (delta_ref_num .COL_DELTA_TIME b)))
      ∧ frame_data_compare fatal_criticals mode delta_fn epan a b .COL_DELTA_TIME_DIS
        = some (ref_time_first_rule a b
            (frame_delta_abs_time delta_fn epan a (delta_ref_num .COL_DELTA_TIME_DIS a))
            (frame_delta_abs_time delta_fn epan b (delta_ref_num .COL_DELTA_TIME_DIS b))) := by
  have key : ∀ ta tb : nstime_t,
      COMPARE_TS_REAL a b ta tb = ref_time_first_rule a b ta tb := by
    intro ta tb
    unfold COMPARE_TS_REAL ref_time_first_rule COMPARE_FRAME_NUM nstime_lt
    cases a.ref_time <;> cases b.ref_time <;> simp <;> split_ifs <;> first | rfl | omega
  refine ⟨?_, ?_, ?_⟩ <;>
    simp only [frame_data_compare, frame_data_time_delta_rel_compare,
      frame_data_time_delta_compare, frame_data_time_delta_dis_compare, delta_ref_num,
      guint32_pred, key]

/-- Claim C7, as the code has it: for a field outside the fixed set
`frame_data_compare` goes through `g_return_val_if_reached(0)`: it returns 0,
the result for equal records, for every pair of records, and aborts only when
critical messages have been made fatal. -/
theorem frame_data_compare_other_field (fatal_criticals : Bool) (mode : ts_type)
    (delta_fn : nstime_t → nstime_t → nstime_t) (epan : epan_session)
    (a b : frame_data) (n : Int) :
    frame_data_compare fatal_criticals mode delta_fn epan a b (.COL_OTHER n)
      = (if fatal_criticals = true then none else some 0) := by
  cases fatal_criticals <;> rfl

/-- Claim C7 fails as stated: for the field value 1000, which is none of the
thirteen fields, the comparison of frame 1 with frame 2 is not an error
outcome; it is the ordinary result 0. -/
theorem frame_data_compare_other_field_returns :
    frame_data_compare false .TS_ABSOLUTE nstime_delta example_epan
        (mk_frame 1 false 10 0 60 60) (mk_frame 2 false 11 0 60 120) (.COL_OTHER 1000)
      = some 0 := by
  decide

/-! ## Before dissection -/

/-- Claim C8: after `frame_data_set_before_dissect` the reference-frame slot
points at the record if the slot was empty or the record is a reference-time
frame, and is unchanged otherwise; the record's `frame_ref_num` is 0 when the
resolved reference frame is the record itself and the resolved frame's
sequence number otherwise; its `prev_dis_num` is the sequence number of the
previous displayed frame, or 0 when there is none.  No other field of the
record and no other record changes. -/
theorem frame_data_set_before_dissect_refs (delta_fn : nstime_t → nstime_t → nstime_t)
    (st : dissect_state) (fdata : Nat) (prev_dis : Option Nat) :
    (frame_data_set_before_dissect delta_fn st fdata prev_dis).frame_ref
        = (if st.frame_ref = none ∨ (st.mem fdata).ref_time = true then some fdata
           else st.frame_ref)
      ∧ (∃ r, (frame_data_set_before_dissect delta_fn st fdata prev_dis).frame_ref = some r
          ∧ ((frame_data_set_before_dissect delta_fn st fdata prev_dis).mem fdata).frame_ref_num
            = (if r = fdata then 0 else (st.mem r).num))
      ∧ ((frame_data_set_before_dissect delta_fn st fdata prev_dis).mem fdata).prev_dis_num
        = (match prev_dis with
           | some p => (st.mem p).num
           | none => 0)
      ∧ (frame_data_set_before_dissect delta_fn st fdata prev_dis).mem fdata
        = { st.mem fdata with
            frame_ref_num :=
              ((frame_data_set_before_dissect delta_fn st fdata prev_dis).mem fdata).frame_ref_num
            prev_dis_num :=
              ((frame_data_set_before_dissect delta_fn st fdata prev_dis).mem fdata).prev_dis_num }
      ∧ (∀ other, other ≠ fdata →
          (frame_data_set_before_dissect delta_fn st fdata prev_dis).mem other = st.mem other) := by
  refine ⟨?_, ?_, ?_, ?_, ?_⟩
  · unfold frame_data_set_before_dissect
    cases hs : st.frame_ref <;> cases hr : (st.mem fdata).ref_time <;> simp
  · refine ⟨if (st.mem fdata).ref_time = true then fdata
        else (match st.frame_ref with
              | none => fdata
              | some r => r), ?_, ?_⟩
    · simp [frame_data_set_before_dissect]
    · simp only [frame_data_set_before_dissect, Function.update_same]
      split_ifs <;> simp_all
  · simp [frame_data_set_before_dissect]
  · simp [frame_data_set_before_dissect]
  · intro other h
    simp [frame_data_set_before_dissect, Function.update_noteq h]

/-- Frame 2 of the example is processed after frame 1, with frame 1 as the
previous displayed frame: the slot keeps pointing at frame 1, `frame_ref_num`
and `prev_dis_num` of frame 2 become 1, and frame 1 is not changed. -/
theorem frame_data_set_before_dissect_refs_witness :
    example_state1.frame_ref = some 1
      ∧ example_state2.frame_ref = some 1
      ∧ (example_state2.mem 2).frame_ref_num = 1
      ∧ (example_state2.mem 2).prev_dis_num = 1
      ∧ (1 : Nat) ≠ 2
      ∧ example_state2.mem 1 = example_state1.mem 1 :=
  ⟨by decide,
    (frame_data_set_before_dissect_refs nstime_delta example_state1 2 (some 1)).1.trans
      (by decide),
    by decide,
    (frame_data_set_before_dissect_refs nstime_delta example_state1 2 (some 1)).2.2.1.trans
      (by decide),
    by decide,
    (frame_data_set_before_dissect_refs nstime_delta example_state1 2 (some 1)).2.2.2.2 1
      (by decide)⟩

/-- A value in the signed 32-bit range is not changed by the cast. -/
theorem to_gint32_of_fits (x : Int) (h : fits_gint32 x) : to_gint32 x = x := by
  unfold fits_gint32 at h
  unfold to_gint32
  omega

/-- When the accumulator is in the signed 32-bit range, the accumulator after
`frame_data_set_before_dissect` is the larger, in (seconds, nanoseconds)
order, of its value before the call and the record's delta to the resolved
reference frame. -/
theorem frame_data_set_before_dissect_elapsed_of_fits
    (delta_fn : nstime_t → nstime_t → nstime_t)
    (st : dissect_state) (fdata : Nat) (prev_dis : Option Nat)
    (hsecs : fits_gint32 st.elapsed_time.secs) (hnsecs : fits_gint32 st.elapsed_time.nsecs) :
    ∃ r, (frame_data_set_before_dissect delta_fn st fdata prev_dis).frame_ref = some r
      ∧ (frame_data_set_before_dissect delta_fn st fdata prev_dis).elapsed_time
        = nstime_max st.elapsed_time (delta_fn (st.mem fdata).abs_ts (st.mem r).abs_ts) := by
  refine ⟨_, rfl, ?_⟩
  simp only [frame_data_set_before_dissect, nstime_max, nstime_lt,
    to_gint32_of_fits _ hsecs, to_gint32_of_fits _ hnsecs]

/-- The same, on frame 2 of the example: the accumulator is 0 s before and
2147483648 s after. -/
theorem frame_data_set_before_dissect_elapsed_of_fits_witness :
    fits_gint32 example_state1.elapsed_time.secs
      ∧ fits_gint32 example_state1.elapsed_time.nsecs
      ∧ ∃ r, example_state2.frame_ref = some r
          ∧ example_state2.elapsed_time
            = nstime_max example_state1.elapsed_time
                (nstime_delta (example_state1.mem 2).abs_ts (example_state1.mem r).abs_ts) :=
  ⟨by decide, by decide,
    frame_data_set_before_dissect_elapsed_of_fits nstime_delta example_state1 2 (some 1)
      (by decide) (by decide)⟩

/-- Claim C9 at the failing input: frames at 0 s, 2147483648 s and 100 s are
processed in this order, starting from a zero accumulator.  After frame 2 the
accumulator is 2147483648 s; the call on frame 3, whose delta to the reference
frame is 100 s, replaces it by 100 s, a smaller value, because the cast
`(gint32)` turns 2147483648 into -2147483648. -/
theorem frame_data_set_before_dissect_elapsed_shrinks :
    example_state2.elapsed_time = { secs := 2147483648, nsecs := 0 }
      ∧ to_gint32 example_state2.elapsed_time.secs = -2147483648
      ∧ example_state3
        = frame_data_set_before_dissect nstime_delta example_state2 3 (some 2)
      ∧ example_state3.elapsed_time = { secs := 100, nsecs := 0 }
      ∧ nstime_lt example_state3.elapsed_time example_state2.elapsed_time
      ∧ example_state3.elapsed_time
        ≠ nstime_max example_state2.elapsed_time
            (nstime_delta (example_state2.mem 3).abs_ts (example_state2.mem 1).abs_ts) := by
  refine ⟨by decide, by decide, rfl, by decide, by decide, by decide⟩

/-! ## The type registry -/

/-- A successful `sttype_register` is in range, finds its slot empty and
fills just that slot. -/
theorem sttype_register_eq_some (n_types : Nat) (type_list type_list1 : Nat → Option sttype_t)
    (type : sttype_t) (h : sttype_register n_types type_list type = some type_list1) :
    type.id < n_types ∧ type_list type.id = none
      ∧ type_list1 = Function.update type_list type.id (some type) := by
  unfold sttype_register at h
  by_cases h1 : type.id < n_types
  · cases h2 : type_list type.id with
    | none =>
      simp [h1, h2] at h
      exact ⟨h1, rfl, h.symm⟩
    | some old => simp [h1, h2] at h
  · simp [h1] at h

/-- `sttype_register` succeeds on an empty slot in range. -/
theorem sttype_register_of_empty (n_types : Nat) (type_list : Nat → Option sttype_t)
    (type : sttype_t) (h1 : type.id < n_types) (h2 : type_list type.id = none) :
    sttype_register n_types type_list type
      = some (Function.update type_list type.id (some type)) := by
  simp [sttype_register, h1, h2]

/-- Registrations keep the registry consistent with the list of the
descriptors registered so far: an occupied slot is in range and holds one of
them, with the identifier of the slot, and each of them is in its slot. -/
theorem sttype_register_all_inv (n_types : Nat) :
    ∀ (types : List sttype_t) (type_list type_list1 : Nat → Option sttype_t)
      (done : List sttype_t),
      sttype_register_all n_types type_list types = some type_list1 →
      (∀ id t, type_list id = some t → t.id = id ∧ t ∈ done ∧ id < n_types) →
      (∀ d ∈ done, type_list d.id = some d) →
      (∀ id t, type_list1 id = some t → t.id = id ∧ t ∈ done ++ types ∧ id < n_types)
        ∧ (∀ d ∈ done ++ types, type_list1 d.id = some d) := by
  intro types
  induction types with
  | nil =>
    intro type_list type_list1 done h hocc hreg
    simp only [sttype_register_all, Option.some.injEq] at h
    subst h
    simpa using ⟨hocc, hreg⟩
  | cons type rest ih =>
    intro type_list type_list1 done h hocc hreg
    simp only [sttype_register_all] at h
    cases hstep : sttype_register n_types type_list type with
    | none => simp [hstep] at h
    | some mid =>
      simp only [hstep] at h
      obtain ⟨hlt, hfree, hmid⟩ := sttype_register_eq_some n_types type_list mid type hstep
      have hocc1 : ∀ id t, mid id = some t → t.id = id ∧ t ∈ done ++ [type] ∧ id < n_types := by
        intro id t ht
        rw [hmid] at ht
        by_cases hid : id = type.id
        · subst hid
          rw [Function.update_same] at ht
          cases ht
          exact ⟨rfl, by simp, hlt⟩
        · rw [Function.update_noteq hid] at ht
          obtain ⟨h1, h2, h3⟩ := hocc id t ht
          exact ⟨h1, by simp [h2], h3⟩
      have hreg1 : ∀ d ∈ done ++ [type], mid d.id = some d := by
        intro d hd
        rw [hmid]
        rcases List.mem_append.mp hd with hd1 | hd1
        · have hdone := hreg d hd1
          have hne : d.id ≠ type.id := by
            intro heq
            rw [heq, hfree] at hdone
            cases hdone
          rw [Function.update_noteq hne]
          exact hdone
        · rw [List.mem_singleton.mp hd1, Function.update_same]
      have := ih mid type_list1 (done ++ [type]) h hocc1 hreg1
      simpa using this

/-- Registering descriptors with pairwise distinct identifiers in range, none
of which is occupied yet, succeeds. -/
theorem sttype_register_all_succeeds (n_types : Nat) :
    ∀ (types : List sttype_t) (type_list : Nat → Option sttype_t),
      (types.map sttype_t.id).Nodup →
      (∀ d ∈ types, d.id < n_types ∧ type_list d.id = none) →
      ∃ type_list1, sttype_register_all n_types type_list types = some type_list1 := by
  intro types
  induction types with
  | nil =>
    intro type_list _ _
    exact ⟨type_list, rfl⟩
  | cons type rest ih =>
    intro type_list hnd hfree
    obtain ⟨hlt, hnone⟩ := hfree type (by simp)
    simp only [List.map_cons, List.nodup_cons, List.mem_map, not_exists, not_and] at hnd
    simp only [sttype_register_all, sttype_register_of_empty n_types type_list type hlt hnone]
    apply ih _ hnd.2
    intro d hd
    have hne : d.id ≠ type.id := hnd.1 d hd
    rw [Function.update_noteq hne]
    exact hfree d (by simp [hd])

/-- The seven registrations of `sttype_init` are the successive registration
of the seven descriptors. -/
theorem sttype_init_eq_register_all (n_types : Nat)
    (t1 t2 t3 t4 t5 t6 t7 : sttype_t) (type_list : Nat → Option sttype_t) :
    sttype_init n_types t1 t2 t3 t4 t5 t6 t7 type_list
      = sttype_register_all n_types type_list [t1, t2, t3, t4, t5, t6, t7] := by
  simp only [sttype_init, sttype_register_all, Option.bind_eq_bind]
  cases sttype_register n_types type_list t1 with
  | none => rfl
  | some l1 =>
    simp only [Option.some_bind]
    cases sttype_register n_types l1 t2 with
    | none => rfl
    | some l2 =>
      simp only [Option.some_bind]
      cases sttype_register n_types l2 t3 with
      | none => rfl
      | some l3 =>
        simp only [Option.some_bind]
        cases sttype_register n_types l3 t4 with
        | none => rfl
        | some l4 =>
          simp only [Option.some_bind]
          cases sttype_register n_types l4 t5 with
          | none => rfl
          | some l5 =>
            simp only [Option.some_bind]
            cases sttype_register n_types l5 t6 with
            | none => rfl
            | some l6 =>
              simp only [Option.some_bind]
              cases sttype_register n_types l6 t7 <;> rfl

/-- Claim C10: in a registry reached from the empty one by successful
`sttype_register` calls, a successful `sttype_lookup` returns a descriptor
that was registered and whose identifier is the queried one, and the lookup
of the identifier of a registered descriptor returns that descriptor; in
particular after `sttype_init` has registered the seven built-in variants, the
lookup of the identifier of each of them returns it, a descriptor with that
identifier. -/
theorem sttype_lookup_registered (n_types : Nat) :
    (∀ (types : List sttype_t) (type_list : Nat → Option sttype_t),
        sttype_register_all n_types type_list_empty types = some type_list →
        (∀ id t, sttype_lookup n_types type_list id = some t → t.id = id ∧ t ∈ types)
          ∧ (∀ d ∈ types, sttype_lookup n_types type_list d.id = some d))
      ∧ (∀ (t1 t2 t3 t4 t5 t6 t7 : sttype_t) (type_list : Nat → Option sttype_t),
          sttype_init n_types t1 t2 t3 t4 t5 t6 t7 type_list_empty = some type_list →
          ∀ d ∈ [t1, t2, t3, t4, t5, t6, t7],
            ∃ t, sttype_lookup n_types type_list d.id = some t ∧ t.id = d.id ∧ t = d) := by
  have main : ∀ (types : List sttype_t) (type_list : Nat → Option sttype_t),
      sttype_register_all n_types type_list_empty types = some type_list →
      (∀ id t, sttype_lookup n_types type_list id = some t → t.id = id ∧ t ∈ types)
        ∧ (∀ d ∈ types, sttype_lookup n_types type_list d.id = some d) := by
    intro types type_list h
    have inv := sttype_register_all_inv n_types types type_list_empty type_list [] h
      (by intro id t ht; simp [type_list_empty] at ht) (by simp)
    simp only [List.nil_append] at inv
    constructor
    · intro id t ht
      unfold sttype_lookup at ht
      by_cases hlt : id < n_types
      · cases hslot : type_list id with
        | none => simp [hlt, hslot] at ht
        | some r =>
          simp [hlt, hslot] at ht
          subst ht
          exact ⟨(inv.1 id r hslot).1, (inv.1 id r hslot).2.1⟩
      · simp [hlt] at ht
    · intro d hd
      have hslot := inv.2 d hd
      have hlt := (inv.1 d.id d hslot).2.2
      simp [sttype_lookup, hlt, hslot]
  refine ⟨main, ?_⟩
  intro t1 t2 t3 t4 t5 t6 t7 type_list h d hd
  rw [sttype_init_eq_register_all] at h
  exact ⟨d, (main _ type_list h).2 d hd, rfl, rfl⟩

/-- Seven descriptors with the identifiers 1 to 7 in a registry of 8 slots:
`sttype_init` succeeds, and the lookup of each of the seven identifiers
returns the descriptor registered with it. -/
theorem sttype_lookup_registered_witness :
    ∃ type_list,
      sttype_init 8 (example_type 1 "FUNCTION") (example_type 2 "INTEGER")
          (example_type 3 "POINTER") (example_type 4 "RANGE") (example_type 5 "SET")
          (example_type 6 "STRING") (example_type 7 "TEST") type_list_empty = some type_list
        ∧ ∀ d ∈ [example_type 1 "FUNCTION", example_type 2 "INTEGER",
              example_type 3 "POINTER", example_type 4 "RANGE", example_type 5 "SET",
              example_type 6 "STRING", example_type 7 "TEST"],
            ∃ t, sttype_lookup 8 type_list d.id = some t ∧ t.id = d.id ∧ t = d := by
  have hsome : (sttype_init 8 (example_type 1 "FUNCTION") (example_type 2 "INTEGER")
      (example_type 3 "POINTER") (example_type 4 "RANGE") (example_type 5 "SET")
      (example_type 6 "STRING") (example_type 7 "TEST") type_list_empty).isSome = true := by
    decide
  obtain ⟨type_list, h⟩ := Option.isSome_iff_exists.mp hsome
  exact ⟨type_list, h, (sttype_lookup_registered 8).2 _ _ _ _ _ _ _ type_list h⟩

/-- A successful `sttype_lookup` returns the content of the slot, which is in
range. -/
theorem sttype_lookup_eq_some (n_types : Nat) (type_list : Nat → Option sttype_t)
    (id : Nat) (t : sttype_t) :
    sttype_lookup n_types type_list id = some t ↔ id < n_types ∧ type_list id = some t := by
  unfold sttype_lookup
  by_cases h : id < n_types
  · cases hs : type_list id <;> simp [h]
  · simp [h]

/-- The lookup `sttype_lookup` fails when the identifier is out of range or
the slot is empty, and only then. -/
theorem sttype_lookup_eq_none (n_types : Nat) (type_list : Nat → Option sttype_t)
    (id : Nat) :
    sttype_lookup n_types type_list id = none ↔ n_types ≤ id ∨ type_list id = none := by
  unfold sttype_lookup
  by_cases h : id < n_types
  · cases hs : type_list id <;> simp [h]
  · simp [h]
    omega

/-- Claim C11: `sttype_register` fails exactly when the identifier of the
descriptor is outside the range (at least `STTYPE_NUM_TYPES`) or its slot is
occupied; otherwise it fills that slot and nothing else, so that a second
registration of the same identifier is rejected; a rejected call yields no
registry, the one passed in is not altered.  `sttype_lookup` fails exactly when
the identifier is outside the range or its slot is empty, which in a registry
reached from the empty one means that no descriptor was registered for it. -/
theorem sttype_register_lookup_failure (n_types : Nat) (type_list : Nat → Option sttype_t)
    (type : sttype_t) :
    (sttype_register n_types type_list type = none
        ↔ n_types ≤ type.id ∨ type_list type.id ≠ none)
      ∧ (sttype_register n_types type_list type = none
          ∨ sttype_register n_types type_list type
            = some (Function.update type_list type.id (some type)))
      ∧ (∀ (type_list1 : Nat → Option sttype_t) (again : sttype_t),
          sttype_register n_types type_list type = some type_list1 →
          again.id = type.id →
          sttype_register n_types type_list1 again = none)
      ∧ (∀ id, sttype_lookup n_types type_list id = none
          ↔ n_types ≤ id ∨ type_list id = none)
      ∧ (∀ types : List sttype_t,
          sttype_register_all n_types type_list_empty types = some type_list →
          ∀ id, sttype_lookup n_types type_list id = none
            ↔ n_types ≤ id ∨ ∀ d ∈ types, d.id ≠ id) := by
  have hfail : sttype_register n_types type_list type = none
      ↔ n_types ≤ type.id ∨ type_list type.id ≠ none := by
    unfold sttype_register
    by_cases h1 : type.id < n_types
    · cases h2 : type_list type.id with
      | none => simp [h1, h2]
      | some old => simp [h1, h2]
    · simp only [h1, not_false_eq_true, if_true, true_iff]
      exact Or.inl (by omega)
  refine ⟨hfail, ?_, ?_, sttype_lookup_eq_none n_types type_list, ?_⟩
  · by_cases h1 : type.id < n_types
    · cases h2 : type_list type.id with
      | none => exact Or.inr (sttype_register_of_empty n_types type_list type h1 h2)
      | some old => exact Or.inl (hfail.mpr (Or.inr (by simp [h2])))
    · exact Or.inl (hfail.mpr (Or.inl (by omega)))
  · intro type_list1 again h hid
    obtain ⟨_, _, hupd⟩ := sttype_register_eq_some n_types type_list type_list1 type h
    unfold sttype_register
    by_cases h1 : again.id < n_types
    · simp [h1, hupd, hid]
    · simp [h1]
  · intro types hreach id
    have inv := sttype_register_all_inv n_types types type_list_empty type_list [] hreach
      (by intro id t ht; simp [type_list_empty] at ht) (by simp)
    simp only [List.nil_append] at inv
    rw [sttype_lookup_eq_none]
    constructor
    · rintro (h | h)
      · exact Or.inl h
      · refine Or.inr ?_
        intro d hd heq
        have := inv.2 d hd
        rw [heq, h] at this
        cases this
    · rintro (h | h)
      · exact Or.inl h
      · cases hs : type_list id with
        | none => exact Or.inr rfl
        | some t =>
          have := inv.1 id t hs
          exact absurd this.1 (h t this.2.1)

/-- A descriptor of identifier 6 is registered in the empty registry of 8
slots; registering another descriptor of identifier 6 in the result is
rejected, as is a descriptor of identifier 8; the lookup of 6 succeeds and
the lookups of 5 and of 8 fail. -/
theorem sttype_register_lookup_failure_witness :
    sttype_register 8 type_list_empty example_string_type
        = some (Function.update type_list_empty 6 (some example_string_type))
      ∧ (example_type 6 "SET").id = example_string_type.id
      ∧ sttype_register 8 (Function.update type_list_empty 6 (some example_string_type))
          (example_type 6 "SET") = none
      ∧ sttype_register 8 type_list_empty (example_type 8 "SET") = none
      ∧ sttype_lookup 8 (Function.update type_list_empty 6 (some example_string_type)) 5 = none
      ∧ sttype_lookup 8 (Function.update type_list_empty 6 (some example_string_type)) 8
        = none :=
  ⟨rfl, rfl,
    (sttype_register_lookup_failure 8 type_list_empty example_string_type).2.2.1
      (Function.update type_list_empty 6 (some example_string_type)) (example_type 6 "SET")
      rfl rfl,
    (sttype_register_lookup_failure 8 type_list_empty (example_type 8 "SET")).1.mpr
      (Or.inl (Nat.le_refl 8)),
    ((sttype_register_lookup_failure 8
      (Function.update type_list_empty 6 (some example_string_type))
      example_string_type).2.2.2.1 5).mpr (Or.inr rfl),
    ((sttype_register_lookup_failure 8
      (Function.update type_list_empty 6 (some example_string_type))
      example_string_type).2.2.2.1 8).mpr (Or.inl (Nat.le_refl 8))⟩

/-! ## Syntax-tree nodes -/

/-- The integrity check passes exactly on the tag `STNODE_MAGIC`. -/
theorem ws_assert_magic_iff (node : stnode_t) :
    ws_assert_magic node STNODE_MAGIC = true ↔ node.magic = STNODE_MAGIC := by
  simp [ws_assert_magic]

/-- Claim C12: `stnode_new` with the identifier `STTYPE_UNINITIALIZED` gives
an empty shell, with no type and no payload, whose `stnode_type_id` is
`STTYPE_UNINITIALIZED` and whose `stnode_type_name` is "UNINITIALIZED"; with
the identifier of a registered descriptor (another identifier than
`STTYPE_UNINITIALIZED`) it gives a node bound to that descriptor, which is the
looked-up one, whose `stnode_type_id` is the identifier and whose payload is
the constructor applied to the raw input when the descriptor has a
constructor, and the raw input otherwise; in all cases the bracket marker is
false and the deprecated annotation is absent. -/
theorem stnode_new_spec (n_types uninitialized : Nat) (types : List sttype_t)
    (type_list : Nat → Option sttype_t)
    (hreach : sttype_register_all n_types type_list_empty types = some type_list)
    (uninit_value : Int) (raw : Nat) :
    (∃ shell, stnode_new n_types uninitialized type_list uninit_value uninitialized raw
          = some shell
        ∧ shell.type = none ∧ shell.data = 0
        ∧ stnode_type_id uninitialized shell = some uninitialized
        ∧ stnode_type_name shell = some "UNINITIALIZED")
      ∧ (∀ d ∈ types, d.id ≠ uninitialized →
          ∃ node, stnode_new n_types uninitialized type_list uninit_value d.id raw = some node
            ∧ sttype_lookup n_types type_list d.id = some d
            ∧ node.type = some d
            ∧ stnode_type_id uninitialized node = some d.id
            ∧ node.data = (match d.func_new with
                           | some func_new => func_new raw
                           | none => raw))
      ∧ (∀ id node,
          stnode_new n_types uninitialized type_list uninit_value id raw = some node →
          node.inside_brackets = false ∧ node.deprecated_token = none
            ∧ node.magic = STNODE_MAGIC) := by
  have inv := sttype_register_all_inv n_types types type_list_empty type_list [] hreach
    (by intro id t ht; simp [type_list_empty] at ht) (by simp)
  simp only [List.nil_append] at inv
  refine ⟨?_, ?_, ?_⟩
  · have hshell : stnode_new n_types uninitialized type_list uninit_value uninitialized raw
        = some { magic := STNODE_MAGIC, deprecated_token := none, inside_brackets := false,
                 type := none, data := 0, value := uninit_value } := by
      simp [stnode_new]
    refine ⟨_, hshell, rfl, rfl, ?_, ?_⟩
    · simp [stnode_type_id, ws_assert_magic]
    · simp [stnode_type_name, ws_assert_magic]
  · intro d hd hne
    have hslot := inv.2 d hd
    have hlt := (inv.1 d.id d hslot).2.2
    have hlook : sttype_lookup n_types type_list d.id = some d :=
      (sttype_lookup_eq_some n_types type_list d.id d).mpr ⟨hlt, hslot⟩
    have hnode : stnode_new n_types uninitialized type_list uninit_value d.id raw
        = some { magic := STNODE_MAGIC, deprecated_token := none, inside_brackets := false,
                 type := some d,
                 data := (match d.func_new with
                          | some func_new => func_new raw
                          | none => raw),
                 value := uninit_value } := by
      simp only [stnode_new, hne, if_false, hlook]
    refine ⟨_, hnode, hlook, rfl, ?_, rfl⟩
    simp [stnode_type_id, ws_assert_magic]
  · intro id node h
    unfold stnode_new at h
    by_cases hid : id = uninitialized
    · simp only [hid, if_true, Option.some.injEq] at h
      subst h
      exact ⟨rfl, rfl, rfl⟩
    · simp only [hid, if_false] at h
      cases hl : sttype_lookup n_types type_list id with
      | none => simp [hl] at h
      | some t =>
        simp only [hl, Option.some.injEq] at h
        subst h
        exact ⟨rfl, rfl, rfl⟩

/-- In the example registry, with 0 as `STTYPE_UNINITIALIZED`: `stnode_new`
of identifier 6 and raw input 42 is bound to the descriptor of identifier 6,
its payload is the constructor's 1042, and its `stnode_type_id` is 6. -/
theorem stnode_new_spec_witness :
    sttype_register_all 8 type_list_empty
        [example_type 1 "TEST", example_string_type, example_type 7 "INTEGER"]
        = some example_type_list
      ∧ ∃ node, stnode_new 8 0 example_type_list 0 6 42 = some node
          ∧ sttype_lookup 8 example_type_list 6 = some example_string_type
          ∧ node.type = some example_string_type
          ∧ stnode_type_id 0 node = some 6
          ∧ node.data = 1042 :=
  ⟨rfl,
    (stnode_new_spec 8 0 [example_type 1 "TEST", example_string_type, example_type 7 "INTEGER"]
      example_type_list rfl 0 42).2.1 example_string_type (by simp) (by decide)⟩

/-- Claim C13: on a node with a valid tag `stnode_init` fails exactly when
the node has a bound type or a non-empty payload or the identifier is not
registered (its lookup fails); when it succeeds, on an empty shell, the node
gets the type and the payload of `stnode_new` for the same identifier and raw
input, the bracket marker, the deprecated annotation and every other field
keep their values, and every later `stnode_init` or `stnode_init_int` on the
node fails: a node is bound at most once. -/
theorem stnode_init_spec (n_types : Nat) (type_list : Nat → Option sttype_t)
    (node : stnode_t) (id raw : Nat) (hmagic : node.magic = STNODE_MAGIC) :
    (stnode_init n_types type_list node id raw = none
        ↔ node.type ≠ none ∨ node.data ≠ 0 ∨ sttype_lookup n_types type_list id = none)
      ∧ (∀ node1, stnode_init n_types type_list node id raw = some node1 →
          (node.type = none ∧ node.data = 0)
            ∧ (∀ (uninitialized : Nat) (uninit_value : Int), id ≠ uninitialized →
                ∃ fresh, stnode_new n_types uninitialized type_list uninit_value id raw
                    = some fresh
                  ∧ node1 = { node with type := fresh.type, data := fresh.data })
            ∧ node1.inside_brackets = node.inside_brackets
            ∧ node1.deprecated_token = node.deprecated_token
            ∧ (∀ id2 raw2, stnode_init n_types type_list node1 id2 raw2 = none)
            ∧ (∀ id2 value2, stnode_init_int n_types type_list node1 id2 value2 = none)) := by
  have hm : ws_assert_magic node STNODE_MAGIC = true := (ws_assert_magic_iff node).mpr hmagic
  constructor
  · unfold stnode_init
    cases ht : node.type with
    | some t => simp [hm]
    | none =>
      by_cases hd : node.data = 0
      · cases hl : sttype_lookup n_types type_list id <;> simp [hm, hd]
      · simp [hm, hd]
  · intro node1 h
    unfold stnode_init at h
    cases ht : node.type with
    | some t => simp [hm, ht] at h
    | none =>
      by_cases hd : node.data = 0
      · cases hl : sttype_lookup n_types type_list id with
        | none => simp [hm, ht, hd, hl] at h
        | some t =>
          simp only [hm, ht, hd, hl, Option.isNone_none, not_true_eq_false, if_false,
            Option.some.injEq] at h
          subst h
          have again : ∀ id2 raw2,
              stnode_init n_types type_list
                { node with
                  type := some t
                  data := (match t.func_new with
                           | some func_new => func_new raw
                           | none => raw) } id2 raw2 = none := by
            intro id2 raw2
            simp [stnode_init]
          refine ⟨⟨rfl, hd⟩, ?_, rfl, rfl, again, ?_⟩
          · intro uninitialized uninit_value hne
            have hfresh : stnode_new n_types uninitialized type_list uninit_value id raw
                = some { magic := STNODE_MAGIC, deprecated_token := none,
                         inside_brackets := false, type := some t,
                         data := (match t.func_new with
                                  | some func_new => func_new raw
                                  | none => raw),
                         value := uninit_value } := by
              simp only [stnode_new, hne, if_false, hl]
            exact ⟨_, hfresh, rfl⟩
          · intro id2 value2
            simp only [stnode_init_int, again]
      · simp [hm, ht, hd] at h

/-- In the example registry the empty shell is bound to the descriptor of
identifier 6 with raw input 42: the payload is 1042, the bracket marker and
the deprecated annotation are kept, and a second `stnode_init` fails. -/
theorem stnode_init_spec_witness :
    example_shell.magic = STNODE_MAGIC
      ∧ stnode_init 8 example_type_list example_shell 6 42
        = some { example_shell with type := some example_string_type, data := 1042 }
      ∧ stnode_init 8 example_type_list
          { example_shell with type := some example_string_type, data := 1042 } 7 0 = none
      ∧ stnode_init_int 8 example_type_list
          { example_shell with type := some example_string_type, data := 1042 } 7 3 = none :=
  ⟨rfl, rfl,
    ((stnode_init_spec 8 example_type_list example_shell 6 42 rfl).2 _ rfl).2.2.2.2.1 7 0,
    ((stnode_init_spec 8 example_type_list example_shell 6 42 rfl).2 _ rfl).2.2.2.2.2 7 3⟩

/-- Claim C14: `stnode_dup` of an absent node is absent; of a present node
it is a new node with the same bound type, the same immediate value and the
same bracket marker, whose payload is the duplicator applied to the payload
of the original when the bound type has a duplicator, and the payload of the
original itself when the node is unbound or its type has no duplicator.  The
new node has a valid tag and no deprecated annotation.  The function writes
nothing to the original: its only output is the new node. -/
theorem stnode_dup_spec (org : stnode_t) :
    stnode_dup none = none
      ∧ ∃ node, stnode_dup (some org) = some node
          ∧ node.type = org.type
          ∧ node.value = org.value
          ∧ node.inside_brackets = org.inside_brackets
          ∧ node.data = (match org.type with
                         | some t =>
                           (match t.func_dup with
                            | some func_dup => func_dup org.data
                            | none => org.data)
                         | none => org.data)
          ∧ node.magic = STNODE_MAGIC
          ∧ node.deprecated_token = none :=
  ⟨rfl, _, rfl, rfl, rfl, rfl, rfl, rfl, rfl⟩

/-- The duplicate of the example node, whose type has the identity as
duplicator, has the payload 1042 of the original; the duplicate of the empty
shell has the empty payload. -/
theorem stnode_dup_examples :
    (∃ node, stnode_dup (some example_node) = some node ∧ node.data = 1042 ∧ node.value = 5)
      ∧ (∃ node, stnode_dup (some example_shell) = some node ∧ node.data = 0
          ∧ node.inside_brackets = true) := by
  obtain ⟨n1, h1, _, hv, _, hd, _⟩ := (stnode_dup_spec example_node).2
  obtain ⟨n2, h2, _, _, hb, hd2, _⟩ := (stnode_dup_spec example_shell).2
  exact ⟨⟨n1, h1, hd, hv⟩, ⟨n2, h2, hd2, hb⟩⟩

/-- Claim C15, the round-trip law: when the type `T` is registered under
the identifier and the duplicator of `T`, if `T` has one, applied to the
payload that `stnode_new` builds from the raw input (the constructor's output,
or the raw input when `T` has no constructor) gives back an equal payload,
then `stnode_new` succeeds and `stnode_dup` of its result is equal to its
result, in every field: bound type, payload, immediate value, bracket marker,
deprecated annotation and tag. -/
theorem stnode_dup_new_round_trip (n_types uninitialized : Nat)
    (type_list : Nat → Option sttype_t) (uninit_value : Int) (id raw : Nat) (T : sttype_t)
    (hid : id ≠ uninitialized)
    (hT : sttype_lookup n_types type_list id = some T)
    (hcompat : ∀ func_dup, T.func_dup = some func_dup →
      func_dup (match T.func_new with
                | some func_new => func_new raw
                | none => raw)
        = (match T.func_new with
           | some func_new => func_new raw
           | none => raw)) :
    ∃ node, stnode_new n_types uninitialized type_list uninit_value id raw = some node
      ∧ node.type = some T
      ∧ stnode_dup (some node) = some node := by
  have hnode : stnode_new n_types uninitialized type_list uninit_value id raw
      = some { magic := STNODE_MAGIC, deprecated_token := none, inside_brackets := false,
               type := some T,
               data := (match T.func_new with
                        | some func_new => func_new raw
                        | none => raw),
               value := uninit_value } := by
    simp only [stnode_new, hid, if_false, hT]
  refine ⟨_, hnode, rfl, ?_⟩
  cases hdup : T.func_dup with
  | none => simp [stnode_dup, hdup]
  | some func_dup => simp [stnode_dup, hdup, hcompat func_dup hdup]

/-- The empty shell of `stnode_new` is equal to its duplicate as well. -/
theorem stnode_dup_new_uninitialized (n_types uninitialized : Nat)
    (type_list : Nat → Option sttype_t) (uninit_value : Int) (raw : Nat) :
    ∃ node, stnode_new n_types uninitialized type_list uninit_value uninitialized raw
        = some node
      ∧ stnode_dup (some node) = some node := by
  have hshell : stnode_new n_types uninitialized type_list uninit_value uninitialized raw
      = some { magic := STNODE_MAGIC, deprecated_token := none, inside_brackets := false,
               type := none, data := 0, value := uninit_value } := by
    simp [stnode_new]
  exact ⟨_, hshell, rfl⟩

/-- The descriptor of identifier 6 of the example registry has the identity
as duplicator: the node made from the raw input 42 is equal to its
duplicate. -/
theorem stnode_dup_new_round_trip_witness :
    (6 : Nat) ≠ 0
      ∧ sttype_lookup 8 example_type_list 6 = some example_string_type
      ∧ ∃ node, stnode_new 8 0 example_type_list 0 6 42 = some node
          ∧ node.type = some example_string_type
          ∧ stnode_dup (some node) = some node :=
  ⟨by decide, rfl,
    stnode_dup_new_round_trip 8 0 example_type_list 0 6 42 example_string_type (by decide) rfl
      (by
        intro func_dup h
        have hf : func_dup = fun payload => payload := by
          simpa [example_string_type] using h.symm
        subst hf
        rfl)⟩

/-- Claim C16: on a node with a non-empty payload `stnode_steal_data` returns
the payload and leaves the node with an empty payload and every other field
unchanged, so that `stnode_data` is empty afterwards; on a node with an empty
payload it fails; hence a second `stnode_steal_data` right after a successful
one is rejected. -/
theorem stnode_steal_data_spec (node : stnode_t) (hmagic : node.magic = STNODE_MAGIC) :
    (node.data ≠ 0 →
        stnode_steal_data node = some (node.data, { node with data := 0 })
          ∧ stnode_data { node with data := 0 } = some 0)
      ∧ (node.data = 0 → stnode_steal_data node = none)
      ∧ (∀ payload node1, stnode_steal_data node = some (payload, node1) →
          stnode_steal_data node1 = none) := by
  have hm : ws_assert_magic node STNODE_MAGIC = true := (ws_assert_magic_iff node).mpr hmagic
  refine ⟨?_, ?_, ?_⟩
  · intro hd
    constructor
    · simp [stnode_steal_data, hm, hd]
    · simpa [stnode_data, ws_assert_magic] using hmagic
  · intro hd
    simp [stnode_steal_data, hm, hd]
  · intro payload node1 h
    unfold stnode_steal_data at h
    by_cases hd : node.data = 0
    · simp [hm, hd] at h
    · simp only [hm, hd, not_true_eq_false, not_false_eq_true, if_false, ne_eq,
        Option.some.injEq, Prod.mk.injEq] at h
      obtain ⟨_, h2⟩ := h
      subst h2
      simp [stnode_steal_data]

/-- The payload 1042 of the example node is stolen; the node is left with an
empty payload, and stealing again fails. -/
theorem stnode_steal_data_spec_witness :
    example_node.magic = STNODE_MAGIC
      ∧ example_node.data ≠ 0
      ∧ stnode_steal_data example_node = some (1042, { example_node with data := 0 })
      ∧ stnode_data { example_node with data := 0 } = some 0
      ∧ stnode_steal_data { example_node with data := 0 } = none :=
  ⟨rfl, by decide,
    ((stnode_steal_data_spec example_node rfl).1 (by decide)).1,
    ((stnode_steal_data_spec example_node rfl).1 (by decide)).2,
    (stnode_steal_data_spec example_node rfl).2.2 1042 { example_node with data := 0 }
      ((stnode_steal_data_spec example_node rfl).1 (by decide)).1⟩

/-- Claim C17: on a node with a valid tag `stnode_free` is rejected exactly
when the node has no bound type and a non-empty payload; it succeeds for every
bound node, also when the type has no destructor and the payload is empty, and
for every unbound node with an empty payload; the destructor is called, on the
payload of the node, exactly when the node is bound and its type has a
destructor. -/
theorem stnode_free_spec (node : stnode_t) (hmagic : node.magic = STNODE_MAGIC) :
    (stnode_free node = none ↔ node.type = none ∧ node.data ≠ 0)
      ∧ (∀ t, node.type = some t →
          stnode_free node = some (match t.func_free with
                                   | some _ => [node.data]
                                   | none => []))
      ∧ (node.type = none → node.data = 0 → stnode_free node = some [])
      ∧ (∀ calls, stnode_free node = some calls →
          (calls ≠ [] ↔ ∃ t func_free, node.type = some t ∧ t.func_free = some func_free)
            ∧ (∀ payload ∈ calls, payload = node.data)) := by
  have hm : ws_assert_magic node STNODE_MAGIC = true := (ws_assert_magic_iff node).mpr hmagic
  refine ⟨?_, ?_, ?_, ?_⟩
  · unfold stnode_free
    cases ht : node.type with
    | none =>
      by_cases hd : node.data = 0 <;> simp [hm, hd]
    | some t =>
      cases hf : t.func_free <;> simp [hm, hf]
  · intro t ht
    unfold stnode_free
    cases hf : t.func_free <;> simp [hm, ht, hf]
  · intro ht hd
    simp [stnode_free, hm, ht, hd]
  · intro calls h
    unfold stnode_free at h
    cases ht : node.type with
    | none =>
      by_cases hd : node.data = 0
      · simp only [hm, ht, hd, not_true_eq_false, if_false, Option.some.injEq] at h
        subst h
        simp
      · simp [hm, ht, hd] at h
    | some t =>
      cases hf : t.func_free with
      | none =>
        simp only [hm, ht, hf, not_true_eq_false, if_false, Option.some.injEq] at h
        subst h
        simp [hf]
      | some f =>
        simp only [hm, ht, hf, not_true_eq_false, if_false, Option.some.injEq] at h
        subst h
        simp [hf]

/-- The example node is bound to a type with a destructor: it is freed and
the destructor is called on its payload 1042; the empty shell is freed without
a destructor call; a shell with a payload is rejected. -/
theorem stnode_free_spec_witness :
    example_node.magic = STNODE_MAGIC
      ∧ stnode_free example_node = some [1042]
      ∧ stnode_free example_shell = some []
      ∧ stnode_free { example_shell with data := 7 } = none :=
  ⟨rfl,
    (stnode_free_spec example_node rfl).2.1 example_string_type rfl,
    (stnode_free_spec example_shell rfl).2.2.1 rfl rfl,
    (stnode_free_spec { example_shell with data := 7 } rfl).1.mpr ⟨rfl, by decide⟩⟩

/-- The eight operations that start with `ws_assert_magic` fail on a node
whose tag is not `STNODE_MAGIC`, whatever the other fields and arguments
are. -/
theorem stnode_checked_operations_fail (n_types uninitialized : Nat)
    (type_list : Nat → Option sttype_t) (node : stnode_t) (id raw : Nat) (value : Int)
    (hmagic : node.magic ≠ STNODE_MAGIC) :
    stnode_init n_types type_list node id raw = none
      ∧ stnode_init_int n_types type_list node id value = none
      ∧ stnode_free node = none
      ∧ stnode_type_name node = none
      ∧ stnode_type_id uninitialized node = none
      ∧ stnode_data node = none
      ∧ stnode_steal_data node = none
      ∧ stnode_value node = none := by
  have hm : ws_assert_magic node STNODE_MAGIC = false := by
    simpa [ws_assert_magic] using hmagic
  have hinit : ∀ raw1, stnode_init n_types type_list node id raw1 = none := by
    intro raw1
    simp [stnode_init, hm]
  refine ⟨hinit raw, ?_, ?_, ?_, ?_, ?_, ?_, ?_⟩
  · simp [stnode_init_int, hinit]
  · simp [stnode_free, hm]
  · simp [stnode_type_name, hm]
  · simp [stnode_type_id, hm]
  · simp [stnode_data, hm]
  · simp [stnode_steal_data, hm]
  · simp [stnode_value, hm]

/-- The eight checked operations on the example node with the tag 0. -/
theorem stnode_checked_operations_fail_witness :
    example_corrupt_node.magic ≠ STNODE_MAGIC
      ∧ stnode_init 8 example_type_list example_corrupt_node 7 0 = none
      ∧ stnode_free example_corrupt_node = none
      ∧ stnode_steal_data example_corrupt_node = none :=
  ⟨by decide,
    (stnode_checked_operations_fail 8 0 example_type_list example_corrupt_node 7 0 0
      (by decide)).1,
    (stnode_checked_operations_fail 8 0 example_type_list example_corrupt_node 7 0 0
      (by decide)).2.2.1,
    (stnode_checked_operations_fail 8 0 example_type_list example_corrupt_node 7 0 0
      (by decide)).2.2.2.2.2.2.1⟩

/-- Claim C18 at the failing input: the node `example_corrupt_node` has the
tag 0, not `STNODE_MAGIC`.  `stnode_set_bracket`, `stnode_dup` and
`stnode_deprecated` do not look at the tag: the first sets the bracket marker
of the node, the second returns a copy that carries a valid tag, the third
returns the deprecated token; none of them fails, while `stnode_data` on the
same node does. -/
theorem stnode_unchecked_operations_proceed :
    example_corrupt_node.magic ≠ STNODE_MAGIC
      ∧ stnode_data example_corrupt_node = none
      ∧ stnode_set_bracket example_corrupt_node true
        = { example_corrupt_node with inside_brackets := true }
      ∧ (∃ node, stnode_dup (some example_corrupt_node) = some node
          ∧ node.magic = STNODE_MAGIC ∧ node.data = 1042 ∧ stnode_data node = some 1042)
      ∧ stnode_deprecated (some example_corrupt_node) = some "old" := by
  refine ⟨by decide, by decide, rfl, ⟨_, rfl, rfl, rfl, by decide⟩, rfl⟩

/-! ## The comparator is an ordering -/

/-- Comparing an integer key first and falling back to a three-way ordering
when the keys are equal is a three-way ordering. -/
theorem three_way_ordering_int_key (k : frame_data → Int) (c : frame_data → frame_data → Int)
    (hc : three_way_ordering c) :
    three_way_ordering
      (fun a b => if k a < k b then -1 else if k a > k b then 1 else c a b) := by
  refine ⟨?_, ?_, ?_⟩
  · intro a b
    have h := hc.1 a b
    simp only []
    split_ifs <;> omega
  · intro a b
    have h := hc.2.1 a b
    simp only []
    split_ifs <;> omega
  · intro a b d hab hbd
    simp only [] at hab hbd ⊢
    have h := hc.2.2 a b d
    split_ifs at hab hbd ⊢ <;> omega

/-- The same with a natural number as the key. -/
theorem three_way_ordering_nat_key (k : frame_data → Nat) (c : frame_data → frame_data → Int)
    (hc : three_way_ordering c) :
    three_way_ordering
      (fun a b => if k a < k b then -1 else if k a > k b then 1 else c a b) := by
  have h := three_way_ordering_int_key (fun r => (k r : Int)) c hc
  simpa only [Nat.cast_lt, gt_iff_lt] using h

/-- The constant 0 is a three-way ordering. -/
theorem zero_three_way : three_way_ordering (fun _ _ => 0) :=
  ⟨fun _ _ => Or.inr (Or.inl rfl), fun _ _ => rfl, fun _ _ _ _ _ => le_refl 0⟩

/-- The macro `COMPARE_FRAME_NUM` is a three-way ordering. -/
theorem COMPARE_FRAME_NUM_three_way :
    three_way_ordering (fun a b => COMPARE_FRAME_NUM a b) :=
  three_way_ordering_nat_key frame_data.num _ zero_three_way

/-- The macro `COMPARE_NUM` is a three-way ordering, for every field. -/
theorem COMPARE_NUM_three_way (f : frame_data → Nat) :
    three_way_ordering (fun a b => COMPARE_NUM f a b) :=
  three_way_ordering_nat_key f _ COMPARE_FRAME_NUM_three_way

/-- The macro `COMPARE_TS_REAL`, with a time value attached to each record, is
a three-way ordering: it compares the key (0 for a reference-time record, 1
for another one), then the seconds, then the nanoseconds, then the number. -/
theorem COMPARE_TS_REAL_three_way (t : frame_data → nstime_t) :
    three_way_ordering (fun a b => COMPARE_TS_REAL a b (t a) (t b)) := by
  have hlex := three_way_ordering_int_key (fun r => if r.ref_time then 0 else 1) _
    (three_way_ordering_int_key (fun r => (t r).secs) _
      (three_way_ordering_int_key (fun r => (t r).nsecs) _ COMPARE_FRAME_NUM_three_way))
  have heq : (fun a b => COMPARE_TS_REAL a b (t a) (t b))
      = (fun a b =>
          if (if a.ref_time then (0 : Int) else 1) < (if b.ref_time then (0 : Int) else 1)
          then -1
          else if (if a.ref_time then (0 : Int) else 1) > (if b.ref_time then (0 : Int) else 1)
          then 1
          else if (t a).secs < (t b).secs then -1
          else if (t a).secs > (t b).secs then 1
          else if (t a).nsecs < (t b).nsecs then -1
          else if (t a).nsecs > (t b).nsecs then 1
          else COMPARE_FRAME_NUM a b) := by
    funext a b
    unfold COMPARE_TS_REAL
    cases a.ref_time <;> cases b.ref_time <;> simp
  rw [heq]
  exact hlex

/-- Claim C20: for every field, time-display mode, delta function and
session, `frame_data_compare` is a consistent three-way ordering of the
records: it returns a value for every pair of records, the value is -1, 0 or
1, the value for `(b, a)` is the negation of the value for `(a, b)`, and
`compare a b ≤ 0` with `compare b d ≤ 0` gives `compare a d ≤ 0`.  The one
exception is a field outside the fixed set in a process that aborts on
critical messages, where the function returns nothing at all. -/
theorem frame_data_compare_three_way (fatal_criticals : Bool) (mode : ts_type)
    (delta_fn : nstime_t → nstime_t → nstime_t) (epan : epan_session) (field : col_field) :
    (fatal_criticals = true ∧ (∃ n, field = .COL_OTHER n)
        ∧ ∀ a b, frame_data_compare fatal_criticals mode delta_fn epan a b field = none)
      ∨ ∃ c : frame_data → frame_data → Int,
          (∀ a b, frame_data_compare fatal_criticals mode delta_fn epan a b field
              = some (c a b))
            ∧ three_way_ordering c := by
  have habs := COMPARE_TS_REAL_three_way frame_data.abs_ts
  have hrel := COMPARE_TS_REAL_three_way
    (fun r => frame_delta_abs_time delta_fn epan r r.frame_ref_num)
  have hdelta := COMPARE_TS_REAL_three_way
    (fun r => frame_delta_abs_time delta_fn epan r (guint32_pred r.num))
  have hdis := COMPARE_TS_REAL_three_way
    (fun r => frame_delta_abs_time delta_fn epan r r.prev_dis_num)
  cases field with
  | COL_NUMBER => exact Or.inr ⟨_, fun _ _ => rfl, COMPARE_FRAME_NUM_three_way⟩
  | COL_CLS_TIME =>
    cases mode with
    | TS_RELATIVE => exact Or.inr ⟨_, fun _ _ => rfl, hrel⟩
    | TS_ABSOLUTE => exact Or.inr ⟨_, fun _ _ => rfl, habs⟩
    | TS_ABSOLUTE_WITH_YMD => exact Or.inr ⟨_, fun _ _ => rfl, habs⟩
    | TS_ABSOLUTE_WITH_YDOY => exact Or.inr ⟨_, fun _ _ => rfl, habs⟩
    | TS_DELTA => exact Or.inr ⟨_, fun _ _ => rfl, hdelta⟩
    | TS_DELTA_DIS => exact Or.inr ⟨_, fun _ _ => rfl, hdis⟩
    | TS_EPOCH => exact Or.inr ⟨_, fun _ _ => rfl, habs⟩
    | TS_UTC => exact Or.inr ⟨_, fun _ _ => rfl, habs⟩
    | TS_UTC_WITH_YMD => exact Or.inr ⟨_, fun _ _ => rfl, habs⟩
    | TS_UTC_WITH_YDOY => exact Or.inr ⟨_, fun _ _ => rfl, habs⟩
    | TS_NOT_SET => exact Or.inr ⟨_, fun _ _ => rfl, zero_three_way⟩
  | COL_ABS_TIME => exact Or.inr ⟨_, fun _ _ => rfl, habs⟩
  | COL_ABS_YMD_TIME => exact Or.inr ⟨_, fun _ _ => rfl, habs⟩
  | COL_ABS_YDOY_TIME => exact Or.inr ⟨_, fun _ _ => rfl, habs⟩
  | COL_UTC_TIME => exact Or.inr ⟨_, fun _ _ => rfl, habs⟩
  | COL_UTC_YMD_TIME => exact Or.inr ⟨_, fun _ _ => rfl, habs⟩
  | COL_UTC_YDOY_TIME => exact Or.inr ⟨_, fun _ _ => rfl, habs⟩
  | COL_REL_TIME => exact Or.inr ⟨_, fun _ _ => rfl, hrel⟩
  | COL_DELTA_TIME => exact Or.inr ⟨_, fun _ _ => rfl, hdelta⟩
  | COL_DELTA_TIME_DIS => exact Or.inr ⟨_, fun _ _ => rfl, hdis⟩
  | COL_PACKET_LENGTH =>
    exact Or.inr ⟨_, fun _ _ => rfl, COMPARE_NUM_three_way frame_data.pkt_len⟩
  | COL_CUMULATIVE_BYTES =>
    exact Or.inr ⟨_, fun _ _ => rfl, COMPARE_NUM_three_way frame_data.cum_bytes⟩
  | COL_OTHER n =>
    cases fatal_criticals with
    | true => exact Or.inl ⟨rfl, ⟨n, rfl⟩, fun _ _ => rfl⟩
    | false => exact Or.inr ⟨_, fun _ _ => rfl, zero_three_way⟩

/-! ## The World of Warcraft World dissector -/

/-- The labelling of the whole buffer at the start of `dissect_woww` finds
its bytes. -/
theorem proto_tree_add_item_whole (tvb : tvbuff_t) :
    proto_tree_add_item tvb 0 (-1) = some () := by
  simp [proto_tree_add_item]

/-- A labelling or fetch of `length` bytes succeeds exactly when the bytes
are in the buffer. -/
theorem proto_tree_add_item_nat (tvb : tvbuff_t) (start length : Nat) :
    proto_tree_add_item tvb start (length : Int)
      = if start + length ≤ tvb.data.length then some () else none := by
  have hne : ¬ ((length : Int) = -1) := by omega
  simp [proto_tree_add_item, hne, tvb_bytes_exist]

/-- The labelling of 2 bytes. -/
theorem proto_tree_add_item_two (tvb : tvbuff_t) (start : Nat) :
    proto_tree_add_item tvb start 2
      = if start + 2 ≤ tvb.data.length then some () else none := by
  simpa using proto_tree_add_item_nat tvb start 2

/-- The labelling of 4 bytes. -/
theorem proto_tree_add_item_four (tvb : tvbuff_t) (start : Nat) :
    proto_tree_add_item tvb start 4
      = if start + 4 ≤ tvb.data.length then some () else none := by
  simpa using proto_tree_add_item_nat tvb start 4

/-- Claim C19, as the code has it: `dissect_woww` returns 0 exactly when the
reported length of the buffer is below `WOWW_MIN_LENGTH` (4) or its captured
length is below 1.  For every other buffer it reads the 2-byte size at offset
0 and the opcode at offset 2, of 2 bytes from the server and of 4 bytes from
the client: when the captured bytes cover these reads, it returns the captured
length; when they do not, the bounds-checked read throws an exception and the
function returns nothing. -/
theorem dissect_woww_spec (tvb : tvbuff_t) (pinfo : packet_info) :
    ((∃ r, dissect_woww tvb pinfo = some r ∧ r.consumed = 0)
        ↔ tvb_reported_length tvb < 4 ∨ tvb_captured_length tvb < 1)
      ∧ (¬ (tvb_reported_length tvb < 4 ∨ tvb_captured_length tvb < 1) →
          2 + woww_opcode_len pinfo ≤ tvb_captured_length tvb →
          ∃ r, dissect_woww tvb pinfo = some r ∧ r.consumed = tvb_captured_length tvb
            ∧ r.col_protocol = some "WOWW")
      ∧ (¬ (tvb_reported_length tvb < 4 ∨ tvb_captured_length tvb < 1) →
          tvb_captured_length tvb < 2 + woww_opcode_len pinfo →
          dissect_woww tvb pinfo = none) := by
  have hgood : ¬ (tvb_reported_length tvb < 4 ∨ tvb_captured_length tvb < 1) →
      2 + woww_opcode_len pinfo ≤ tvb_captured_length tvb →
      ∃ r, dissect_woww tvb pinfo = some r ∧ r.consumed = tvb_captured_length tvb
        ∧ r.col_protocol = some "WOWW" := by
    intro hdecl hlen
    simp only [not_or, not_lt] at hdecl
    obtain ⟨hrep, hcap⟩ := hdecl
    unfold woww_opcode_len at hlen
    unfold tvb_captured_length at hlen hcap
    unfold tvb_reported_length at hrep
    have h1 : ¬ tvb.reported_length < 4 := by omega
    have h2 : ¬ tvb.data.length < 1 := by omega
    simp only [dissect_woww, tvb_reported_length, tvb_captured_length, WOWW_MIN_LENGTH,
      WOWW_TCP_PORT, h1, h2, if_false, proto_tree_add_item_whole]
    by_cases hsrc : pinfo.srcport = 8085
    · simp only [hsrc, if_true] at hlen
      have h3 : 0 + 2 ≤ tvb.data.length := by omega
      have h4 : 0 + 2 + 2 ≤ tvb.data.length := by omega
      simp [hsrc, proto_tree_add_item_nat, proto_tree_add_item_two, proto_tree_add_item_four, tvb_get_guint16, tvb_bytes_exist, h3, h4]
    · by_cases hdst : pinfo.destport = 8085
      · simp only [hsrc, hdst, if_true, if_false] at hlen
        have h3 : 0 + 2 ≤ tvb.data.length := by omega
        have h4 : 0 + 2 + 4 ≤ tvb.data.length := by omega
        simp [hsrc, hdst, proto_tree_add_item_nat, proto_tree_add_item_two, proto_tree_add_item_four, tvb_get_guint32, tvb_bytes_exist, h3, h4]
      · simp only [hsrc, hdst, if_false] at hlen
        have h3 : 0 + 2 ≤ tvb.data.length := by omega
        have h4 : 0 + 2 + 2 ≤ tvb.data.length := by omega
        simp [hsrc, hdst, proto_tree_add_item_nat, proto_tree_add_item_two, proto_tree_add_item_four, h3, h4]
  have hbad : ¬ (tvb_reported_length tvb < 4 ∨ tvb_captured_length tvb < 1) →
      tvb_captured_length tvb < 2 + woww_opcode_len pinfo →
      dissect_woww tvb pinfo = none := by
    intro hdecl hlen
    simp only [not_or, not_lt] at hdecl
    obtain ⟨hrep, hcap⟩ := hdecl
    unfold woww_opcode_len at hlen
    unfold tvb_captured_length at hlen hcap
    unfold tvb_reported_length at hrep
    have h1 : ¬ tvb.reported_length < 4 := by omega
    have h2 : ¬ tvb.data.length < 1 := by omega
    simp only [dissect_woww, tvb_reported_length, tvb_captured_length, WOWW_MIN_LENGTH,
      WOWW_TCP_PORT, h1, h2, if_false, proto_tree_add_item_whole]
    by_cases h3 : 0 + 2 ≤ tvb.data.length
    · by_cases hsrc : pinfo.srcport = 8085
      · simp only [hsrc, if_true] at hlen
        have h4 : ¬ 2 + 2 ≤ tvb.data.length := by omega
        simp [hsrc, proto_tree_add_item_nat, proto_tree_add_item_two, proto_tree_add_item_four, tvb_get_guint16, tvb_bytes_exist, h3, h4]
      · by_cases hdst : pinfo.destport = 8085
        · simp only [hsrc, hdst, if_true, if_false] at hlen
          have h4 : ¬ 2 + 4 ≤ tvb.data.length := by omega
          simp [hsrc, hdst, proto_tree_add_item_nat, proto_tree_add_item_two, proto_tree_add_item_four, tvb_get_guint32, tvb_bytes_exist, h3, h4]
        · simp only [hsrc, hdst, if_false] at hlen
          have h4 : ¬ 0 + 2 + 2 ≤ tvb.data.length := by omega
          simp [hsrc, hdst, proto_tree_add_item_nat, proto_tree_add_item_two, proto_tree_add_item_four, h3, h4]
    · simp [proto_tree_add_item_nat, proto_tree_add_item_two, proto_tree_add_item_four, h3]
  refine ⟨?_, hgood, hbad⟩
  constructor
  · rintro ⟨r, hr, h0⟩
    by_contra hdecl
    by_cases hlen : 2 + woww_opcode_len pinfo ≤ tvb_captured_length tvb
    · obtain ⟨r1, hr1, hc1, _⟩ := hgood hdecl hlen
      rw [hr1] at hr
      cases hr
      simp only [not_or, not_lt] at hdecl
      omega
    · rw [hbad hdecl (by omega)] at hr
      cases hr
  · intro hdecl
    refine ⟨{ consumed := 0, col_protocol := none, col_info := none }, ?_, rfl⟩
    unfold dissect_woww
    rcases hdecl with h | h
    · simp [WOWW_MIN_LENGTH, h]
    · by_cases hrep : tvb_reported_length tvb < WOWW_MIN_LENGTH <;> simp [hrep, h]

/-- A server-to-client packet of 4 bytes and a client-to-server packet of 6
bytes are dissected to their end, with the name of the opcode in the Info
column; a buffer with a reported length of 3 is declined. -/
theorem dissect_woww_spec_witness :
    ¬ (tvb_reported_length example_tvb_server < 4 ∨ tvb_captured_length example_tvb_server < 1)
      ∧ 2 + woww_opcode_len example_from_server ≤ tvb_captured_length example_tvb_server
      ∧ (∃ r, dissect_woww example_tvb_server example_from_server = some r
          ∧ r.consumed = tvb_captured_length example_tvb_server
          ∧ r.col_protocol = some "WOWW")
      ∧ dissect_woww example_tvb_server example_from_server
        = some { consumed := 4, col_protocol := some "WOWW",
                 col_info := some "SMSG_AUTH_CHALLENGE" }
      ∧ dissect_woww example_tvb_client example_to_server
        = some { consumed := 6, col_protocol := some "WOWW",
                 col_info := some "CMSG_AUTH_SESSION" }
      ∧ dissect_woww { data := [0, 1, 2], reported_length := 3 } example_from_server
        = some { consumed := 0, col_protocol := none, col_info := none } :=
  ⟨by decide, by decide,
    (dissect_woww_spec example_tvb_server example_from_server).2.1 (by decide) (by decide),
    by decide, by decide, by decide⟩

/-- Claim C19 fails as stated: the client-to-server packet `example_tvb_short`
has a reported and a captured length of 4, so that it is not declined; the
4-byte opcode at offset 2 ends at offset 6, outside the buffer, and the
function does not return the captured length: the read throws an exception.
The same happens to a packet from the server of which one byte is captured. -/
theorem dissect_woww_short_packet :
    ¬ (tvb_reported_length example_tvb_short < WOWW_MIN_LENGTH
        ∨ tvb_captured_length example_tvb_short < 1)
      ∧ woww_opcode_len example_to_server = 4
      ∧ tvb_bytes_exist example_tvb_short 2 4 = false
      ∧ tvb_get_guint32 example_tvb_short 2 true = none
      ∧ dissect_woww example_tvb_short example_to_server = none
      ∧ dissect_woww { data := [0], reported_length := 6 } example_from_server = none := by
  refine ⟨by decide, by decide, by decide, by decide, by decide, by decide⟩

/-! ## The invariant of the nodes -/

/-- A node made by `stnode_new` satisfies the invariant. -/
theorem stnode_new_invariant (n_types uninitialized : Nat)
    (type_list : Nat → Option sttype_t) (uninit_value : Int) (id raw : Nat) (node : stnode_t)
    (h : stnode_new n_types uninitialized type_list uninit_value id raw = some node) :
    stnode_invariant node := by
  unfold stnode_new at h
  by_cases hid : id = uninitialized
  · simp only [hid, if_true, Option.some.injEq] at h
    subst h
    exact ⟨rfl, fun _ => rfl⟩
  · simp only [hid, if_false] at h
    cases hl : sttype_lookup n_types type_list id with
    | none => simp [hl] at h
    | some t =>
      simp only [hl, Option.some.injEq] at h
      subst h
      exact ⟨rfl, fun hnone => by simp at hnone⟩

/-- A successful `stnode_init` leaves a bound node with the tag it had. -/
theorem stnode_init_invariant (n_types : Nat) (type_list : Nat → Option sttype_t)
    (node node1 : stnode_t) (id raw : Nat)
    (h : stnode_init n_types type_list node id raw = some node1) :
    node1.magic = node.magic ∧ node.magic = STNODE_MAGIC ∧ node1.type ≠ none := by
  unfold stnode_init at h
  by_cases hm : ws_assert_magic node STNODE_MAGIC = true
  · cases ht : node.type with
    | some t => simp [hm, ht] at h
    | none =>
      by_cases hd : node.data = 0
      · cases hl : sttype_lookup n_types type_list id with
        | none => simp [hm, ht, hd, hl] at h
        | some t =>
          simp only [hm, ht, hd, hl, Option.isNone_none, not_true_eq_false, if_false,
            Option.some.injEq] at h
          subst h
          exact ⟨rfl, (ws_assert_magic_iff node).mp hm, by simp⟩
      · simp [hm, ht, hd] at h
  · simp [hm] at h

/-- Every public operation that succeeds on a node keeps the invariant, on the
node it leaves or returns. -/
theorem stnode_apply_invariant (n_types : Nat) (type_list : Nat → Option sttype_t)
    (node node1 : stnode_t) (op : stnode_op) (hinv : stnode_invariant node)
    (h : stnode_apply n_types type_list node op = some node1) :
    stnode_invariant node1 := by
  cases op with
  | init type_id data =>
    obtain ⟨h1, h2, h3⟩ := stnode_init_invariant n_types type_list node node1 type_id data h
    exact ⟨h1.trans h2, fun hnone => absurd hnone h3⟩
  | init_int type_id value =>
    simp only [stnode_apply, stnode_init_int] at h
    cases hi : stnode_init n_types type_list node type_id 0 with
    | none => simp [hi] at h
    | some mid =>
      simp only [hi, Option.some.injEq] at h
      subst h
      obtain ⟨h1, h2, h3⟩ := stnode_init_invariant n_types type_list node mid type_id 0 hi
      exact ⟨h1.trans h2, fun hnone => absurd hnone h3⟩
  | set_bracket bracket =>
    simp only [stnode_apply, stnode_set_bracket, Option.some.injEq] at h
    subst h
    exact hinv
  | steal_data =>
    simp only [stnode_apply, stnode_steal_data] at h
    by_cases hm : ws_assert_magic node STNODE_MAGIC = true
    · by_cases hd : node.data = 0
      · simp [hm, hd] at h
      · simp only [hm, hd, not_true_eq_false, not_false_eq_true, if_false, ne_eq,
          Option.some.injEq] at h
        subst h
        exact ⟨hinv.1, fun _ => rfl⟩
    · simp [hm] at h
  | dup =>
    simp only [stnode_apply, stnode_dup, Option.some.injEq] at h
    subst h
    refine ⟨rfl, ?_⟩
    intro hnone
    have hnone1 : node.type = none := hnone
    simp only [hnone1]
    exact hinv.2 hnone1

/-- A sequence of public operations that succeeds keeps the invariant. -/
theorem stnode_run_invariant (n_types : Nat) (type_list : Nat → Option sttype_t) :
    ∀ (ops : List stnode_op) (node node1 : stnode_t), stnode_invariant node →
      stnode_run n_types type_list node ops = some node1 → stnode_invariant node1 := by
  intro ops
  induction ops with
  | nil =>
    intro node node1 hinv h
    simp only [stnode_run, Option.some.injEq] at h
    subst h
    exact hinv
  | cons op rest ih =>
    intro node node1 hinv h
    simp only [stnode_run] at h
    cases hstep : stnode_apply n_types type_list node op with
    | none => simp [hstep] at h
    | some mid =>
      simp only [hstep] at h
      exact ih mid node1 (stnode_apply_invariant n_types type_list node mid op hinv hstep) h

/-- On a node that satisfies the invariant `stnode_free` passes its
assertions. -/
theorem stnode_free_of_invariant (node : stnode_t) (hinv : stnode_invariant node) :
    ∃ calls, stnode_free node = some calls := by
  have hm : ws_assert_magic node STNODE_MAGIC = true := (ws_assert_magic_iff node).mpr hinv.1
  unfold stnode_free
  cases ht : node.type with
  | none =>
    have hd := hinv.2 ht
    exact ⟨[], by simp [hm, hd]⟩
  | some t =>
    cases hf : t.func_free with
    | none => exact ⟨[], by simp [hm, hf]⟩
    | some f => exact ⟨[node.data], by simp [hm, hf]⟩

/-- Claim C21: every node reached from a node made by `stnode_new` through a
sequence of successful calls of `stnode_init`, `stnode_init_int`,
`stnode_set_bracket`, `stnode_steal_data` and `stnode_dup` has an empty payload
when it has no bound type, and has a valid tag; hence the assertion of
`stnode_free` on an unbound node with a payload does not fail on it, and
`stnode_free` succeeds. -/
theorem stnode_reachable_free (n_types uninitialized : Nat)
    (type_list : Nat → Option sttype_t) (uninit_value : Int) (id raw : Nat)
    (ops : List stnode_op) (node0 node : stnode_t)
    (hnew : stnode_new n_types uninitialized type_list uninit_value id raw = some node0)
    (hrun : stnode_run n_types type_list node0 ops = some node) :
    (node.type = none → node.data = 0)
      ∧ node.magic = STNODE_MAGIC
      ∧ ¬ (node.type = none ∧ node.data ≠ 0)
      ∧ ∃ calls, stnode_free node = some calls := by
  have hinv : stnode_invariant node :=
    stnode_run_invariant n_types type_list ops node0 node
      (stnode_new_invariant n_types uninitialized type_list uninit_value id raw node0 hnew) hrun
  exact ⟨hinv.2, hinv.1, fun hbad => hbad.2 (hinv.2 hbad.1), stnode_free_of_invariant node hinv⟩

/-- In the example registry, with 0 as `STTYPE_UNINITIALIZED`: an empty shell
is made, its bracket marker is set, it is bound to the descriptor of identifier
6 with raw input 42, duplicated, and the payload of the duplicate is stolen;
the resulting node is bound with an empty payload, and `stnode_free` succeeds
on it.  A duplicate of the shell that has not been bound is unbound with an
empty payload. -/
theorem stnode_reachable_free_witness :
    stnode_new 8 0 example_type_list 0 0 42
        = some { magic := STNODE_MAGIC, type := none, data := 0, value := 0,
                 inside_brackets := false, deprecated_token := none }
      ∧ stnode_run 8 example_type_list
          { magic := STNODE_MAGIC, type := none, data := 0, value := 0,
            inside_brackets := false, deprecated_token := none }
          [.set_bracket true, .init 6 42, .dup, .steal_data]
        = some { magic := STNODE_MAGIC, type := some example_string_type, data := 0, value := 0,
                 inside_brackets := true, deprecated_token := none }
      ∧ (∃ calls, stnode_free
          { magic := STNODE_MAGIC, type := some example_string_type, data := 0, value := 0,
            inside_brackets := true, deprecated_token := none } = some calls)
      ∧ stnode_run 8 example_type_list
          { magic := STNODE_MAGIC, type := none, data := 0, value := 0,
            inside_brackets := false, deprecated_token := none }
          [.dup, .set_bracket true]
        = some { magic := STNODE_MAGIC, type := none, data := 0, value := 0,
                 inside_brackets := true, deprecated_token := none }
      ∧ stnode_free
          { magic := STNODE_MAGIC, type := none, data := 0, value := 0,
            inside_brackets := true, deprecated_token := none } = some [] :=
  ⟨rfl, rfl,
    (stnode_reachable_free 8 0 example_type_list 0 0 42
      [.set_bracket true, .init 6 42, .dup, .steal_data] _ _ rfl rfl).2.2.2,
    rfl, rfl⟩

end Wireshark
